import Mathlib

/-! NFT monitor: anomaly detector, risk scorer, recommender and scan cycle.

A shallow embedding of `src/openSeaMonitor.js` (class `OpenSeaMonitor`) and of
`src/continuousMonitor.js` (class `ContinuousMonitor`), followed by the
properties established about them.

Number model.  A JavaScript number is modelled by `JSNum`: a finite value is a
rational, next to `+Infinity`, `-Infinity` and `NaN`; the doubles are the
rationals that `round64` leaves as they are.  Subtraction, multiplication and
division compute the exact result and round it to the nearest IEEE-754 double,
ties to even, with subnormals and with overflow to an infinity.  Comparisons
are the IEEE ones (every comparison with `NaN` is false).  `toStr` and
`toFixed` print the digits that ECMA-262 prescribes.  The sign of zero is not
modelled.
-/

namespace NFTMonitor

/-! ## JavaScript numbers -/

/-- A JavaScript number: a finite value, an infinity, or NaN.  The finite values
of the program are IEEE-754 doubles: `lit` reads a decimal literal as the
nearest double, and `sub`, `mul` and `div` round their exact result to the
nearest double. -/
inductive JSNum where
  | fin (q : ℚ)
  | pinf
  | ninf
  | nan
  deriving DecidableEq

namespace JSNum

/-- Sign of a finite value or an infinity as an integer in {-1, 0, 1}; NaN has none. -/
def sgn : JSNum → Option Int
  | fin q => some (if 0 < q then 1 else if q < 0 then -1 else 0)
  | pinf => some 1
  | ninf => some (-1)
  | nan => none

/-- The infinity of a given non-zero sign. -/
def ofSign (s : Int) : JSNum :=
  if 0 < s then pinf else ninf

/-- Number of binary digits of `n`, by halving at most `fuel` times. -/
def bitLenAux : Nat → Nat → Nat
  | 0, _ => 0
  | fuel + 1, n => if n = 0 then 0 else bitLenAux fuel (n / 2) + 1

/-- Number of binary digits of `n`: `2^(bitLen n - 1) ≤ n < 2^(bitLen n)` for
`n > 0`. -/
def bitLen (n : Nat) : Nat :=
  bitLenAux n n

/-- The quotient `n / d` rounded to the nearest integer, a tie going to the even
one. -/
def roundHalfEven (n d : Nat) : Nat :=
  let q := n / d
  let r := n % d
  if 2 * r < d then q
  else if d < 2 * r then q + 1
  else if q % 2 = 0 then q else q + 1

/-- Binary exponent of a positive rational `n / d`: the integer `e` with
`2^e ≤ n / d < 2^(e+1)`. -/
def binExp (n d : Nat) : Int :=
  let e0 : Int := (bitLen n : Int) - (bitLen d : Int)
  if n * 2 ^ (-e0).toNat < d * 2 ^ e0.toNat then e0 - 1 else e0

/-- The IEEE-754 binary64 value nearest to `q`, ties to the even significand: 53
significant bits, the exponent of the last bit at least `-1074` (subnormals),
and a magnitude that rounds to `2^1024` or more becomes an infinity. -/
def round64 (q : ℚ) : JSNum :=
  if q = 0 then fin 0
  else
    let n := q.num.natAbs
    let d := q.den
    let u : Int := max (binExp n d) (-1022) - 52
    let m := roundHalfEven (n * 2 ^ (-u).toNat) (d * 2 ^ u.toNat)
    if 2 ^ 1024 ≤ m * 2 ^ u.toNat then (if 0 < q then pinf else ninf)
    else
      let r : ℚ := ((m * 2 ^ u.toNat : Nat) : ℚ) / ((2 ^ (-u).toNat : Nat) : ℚ)
      fin (if 0 < q then r else -r)

/-- The value of a decimal literal, or of a decimal number in JSON text: the
nearest double. -/
def lit (q : ℚ) : JSNum :=
  round64 q

/-- JavaScript `a - b`. -/
def sub : JSNum → JSNum → JSNum
  | fin a, fin b => round64 (a - b)
  | nan, _ => nan
  | _, nan => nan
  | pinf, pinf => nan
  | ninf, ninf => nan
  | pinf, _ => pinf
  | ninf, _ => ninf
  | fin _, pinf => ninf
  | fin _, ninf => pinf

/-- JavaScript `a * b`: an infinity times zero is NaN. -/
def mul : JSNum → JSNum → JSNum
  | fin a, fin b => round64 (a * b)
  | a, b =>
    match sgn a, sgn b with
    | some sa, some sb => if sa * sb = 0 then nan else ofSign (sa * sb)
    | _, _ => nan

/-- JavaScript `a / b`: `0/0` and `Infinity/Infinity` are NaN, a non-zero value
over zero is an infinity, a finite value over an infinity is zero. -/
def div : JSNum → JSNum → JSNum
  | nan, _ => nan
  | _, nan => nan
  | fin a, fin b =>
    if b = 0 then (if a = 0 then nan else if 0 < a then pinf else ninf)
    else round64 (a / b)
  | fin _, _ => fin 0
  | pinf, fin b => if b < 0 then ninf else pinf
  | ninf, fin b => if b < 0 then pinf else ninf
  | _, _ => nan

/-- JavaScript `Math.abs`. -/
def abs : JSNum → JSNum
  | fin a => fin |a|
  | pinf => pinf
  | ninf => pinf
  | nan => nan

/-- JavaScript `a > b`: false as soon as one side is NaN. -/
def gt : JSNum → JSNum → Bool
  | fin a, fin b => decide (b < a)
  | nan, _ => false
  | _, nan => false
  | pinf, pinf => false
  | pinf, _ => true
  | ninf, _ => false
  | fin _, pinf => false
  | fin _, ninf => true

/-- The character of a decimal digit. -/
def digitChar (d : Nat) : Char :=
  Char.ofNat (48 + d)

/-- Decimal digits of `n` in front of `acc`, most significant first. -/
def digitsAux : Nat → Nat → List Char → List Char
  | 0, _, acc => acc
  | fuel + 1, n, acc =>
    if n < 10 then digitChar n :: acc
    else digitsAux fuel (n / 10) (digitChar (n % 10) :: acc)

/-- Decimal digits of a natural number; `0` has the single digit `0`. -/
def digits (n : Nat) : List Char :=
  digitsAux (n + 1) n []

/-- A run of `n` zero digits. -/
def zeros (n : Nat) : List Char :=
  List.replicate n '0'

/-- The magnitude of `q` scaled by `10^f` and rounded to the nearest integer,
a tie going to the larger one. -/
def roundScaled (q : ℚ) (f : Nat) : Nat :=
  (2 * q.num.natAbs * 10 ^ f + q.den) / (2 * q.den)

/-- Decimal exponent of a positive rational: the integer `n` with
`10^(n-1) ≤ x < 10^n`. -/
def decExp (x : ℚ) : Int :=
  if 1 ≤ x then ((digits (x.num.natAbs / x.den)).length : Int)
  else
    -(((List.range 400).find? (fun j => x.den ≤ x.num.natAbs * 10 ^ (j + 1))).getD 399 : Int)

/-- The power of ten `10^e`. -/
def pow10 (e : Int) : ℚ :=
  ((10 ^ e.toNat : Nat) : ℚ) / ((10 ^ (-e).toNat : Nat) : ℚ)

/-- The decimal `s * 10^(n-k)`. -/
def decimalValue (s k : Nat) (n : Int) : ℚ :=
  (s : ℚ) * pow10 (n - k)

/-- The `k`-digit decimals `s * 10^(n-k)` next to `x` that read back as the
double `x`, for the exponents `n` and `n + 1`. -/
def candidates (x : ℚ) (k : Nat) (n : Int) : List (Nat × Int) :=
  ([n, n + 1].flatMap (fun n =>
    let t := x * pow10 (k - n)
    let s := t.num.natAbs / t.den
    [(s, n), (s + 1, n)])).filter (fun c =>
      decide (10 ^ (k - 1) ≤ c.1 ∧ c.1 < 10 ^ k) &&
        decide (round64 (decimalValue c.1 k c.2) = fin x))

/-- The candidate nearest to `x`, a tie going to the even digit string. -/
def nearest (x : ℚ) (k : Nat) : List (Nat × Int) → Option (Nat × Int)
  | [] => none
  | c :: cs =>
    match nearest x k cs with
    | none => some c
    | some b =>
      let dc := |decimalValue c.1 k c.2 - x|
      let db := |decimalValue b.1 k b.2 - x|
      if dc < db ∨ (dc = db ∧ c.1 % 2 = 0) then some c else some b

/-- Decimal digits `s`, their count `k` and the exponent `n` with which
`Number::toString` of ECMA-262 prints a positive double `x`: `k` is the
smallest count for which some `s * 10^(n-k)` with `10^(k-1) ≤ s < 10^k` reads
back as `x`, and `s` is the one nearest to `x`.  Seventeen digits are enough
for every double. -/
def decimalRepr (x : ℚ) : Nat × Nat × Int :=
  let n := decExp x
  match (List.range 17).findSome? (fun i =>
      (nearest x (i + 1) (candidates x (i + 1) n)).map (fun c => (c.1, i + 1, c.2))) with
  | some r => r
  | none => (roundScaled (x * pow10 (17 - n)) 0, 17, n)

/-- `Number::toString` of ECMA-262 for a positive double. -/
def toStringPos (x : ℚ) : List Char :=
  let (s, k, n) := decimalRepr x
  let d := digits s
  if (k : Int) ≤ n ∧ n ≤ 21 then d ++ zeros (n - k).toNat
  else if 0 < n ∧ n ≤ 21 then d.take n.toNat ++ '.' :: d.drop n.toNat
  else if -6 < n ∧ n ≤ 0 then '0' :: '.' :: zeros (-n).toNat ++ d
  else
    let ex := 'e' :: (if 0 ≤ n - 1 then '+' else '-') :: digits (n - 1).natAbs
    if k = 1 then d ++ ex else d.take 1 ++ '.' :: d.drop 1 ++ ex

/-- The minus sign of a negative value. -/
def signChars (q : ℚ) : List Char :=
  if q.num < 0 then ['-'] else []

/-- JavaScript conversion of a number to a string, as a template literal does it. -/
def toStr : JSNum → String
  | fin q => if q.num = 0 then "0" else String.mk (signChars q ++ toStringPos |q|)
  | pinf => "Infinity"
  | ninf => "-Infinity"
  | nan => "NaN"

/-- JavaScript `x.toFixed(f)`: the nearest decimal with `f` fractional digits,
ties towards the larger magnitude; a value that is not finite, or of magnitude
at least `10^21`, is printed as `toStr` prints it. -/
def toFixed (x : JSNum) (f : Nat) : String :=
  match x with
  | fin q =>
    if 10 ^ 21 * q.den ≤ q.num.natAbs then toStr (fin q)
    else
      let m := digits (roundScaled q f)
      if f = 0 then String.mk (signChars q ++ m)
      else
        let m := if m.length ≤ f then zeros (f + 1 - m.length) ++ m else m
        String.mk (signChars q ++ m.take (m.length - f) ++ '.' :: m.drop (m.length - f))
  | x => toStr x

end JSNum

/-! ## Data model of `openSeaMonitor.js` -/

/-- The `severity` table of `detectUnusualActivity`, whose keys are also the
keys of the `weights` table of `calculateRiskScore`. -/
inductive Severity where
  | HIGH
  | MEDIUM
  | LOW
  deriving DecidableEq, Repr

/-- The `stats` object built by `fetchCollectionStats`. -/
structure CollectionStats where
  floorPrice : JSNum
  floorPriceSymbol : String
  oneDayVolume : JSNum
  oneDayChange : JSNum
  oneDaySales : JSNum
  oneDayAveragePrice : JSNum
  sevenDayVolume : JSNum
  sevenDayChange : JSNum
  sevenDaySales : JSNum
  thirtyDayVolume : JSNum
  thirtyDayChange : JSNum
  thirtyDaySales : JSNum
  totalVolume : JSNum
  totalSales : JSNum
  totalSupply : JSNum
  numOwners : JSNum
  marketCap : JSNum
  timestamp : String

/-- An alert object: `type`, `severity`, `message`, and the numeric properties
that the rule adds (`value`, `threshold`, `average`, `currentFloor`,
`previousAvg`, `currentMarketCap`, `change`), by name. -/
structure Alert where
  type : String
  severity : Severity
  message : String
  extra : List (String × JSNum)
  deriving DecidableEq

/-- The object returned by `generateRecommendation`. -/
structure Recommendation where
  action : String
  reasoning : String
  confidence : String
  deriving DecidableEq

/-- The object returned by `detectUnusualActivity`. -/
structure ScanResult where
  collection : String
  timestamp : String
  stats : CollectionStats
  alerts : List Alert
  riskScore : Nat
  recommendation : Recommendation

/-! ## `OpenSeaMonitor` -/

namespace OpenSeaMonitor

open JSNum

/-- The volume rule of `detectUnusualActivity` (lines 106-115). -/
def volumeAlerts (s : CollectionStats) : List Alert :=
  if gt s.oneDayChange (fin 100) then
    [{ type := "VOLUME_SURGE",
       severity := if gt s.oneDayChange (fin 300) then Severity.HIGH else Severity.MEDIUM,
       message := "Volume surged " ++ toFixed s.oneDayChange 1 ++ "% in 24h",
       extra := [("value", s.oneDayVolume), ("threshold", fin 100)] }]
  else []

/-- The `avgDailySales` constant of `detectUnusualActivity` (line 118). -/
def avgDailySales (s : CollectionStats) : JSNum :=
  div s.thirtyDaySales (fin 30)

/-- The sales-velocity rule of `detectUnusualActivity` (lines 117-127). -/
def salesAlerts (s : CollectionStats) : List Alert :=
  if gt s.oneDaySales (mul (avgDailySales s) (fin 3)) then
    [{ type := "SALES_SPIKE",
       severity := Severity.HIGH,
       message := "Sales 3x above 30-day average (" ++ toStr s.oneDaySales ++ " vs "
         ++ toFixed (avgDailySales s) 0 ++ ")",
       extra := [("value", s.oneDaySales), ("average", avgDailySales s)] }]
  else []

/-- The `priceChange` constant of `detectUnusualActivity` (line 130). -/
def priceChange (s : CollectionStats) : JSNum :=
  mul (div (sub s.floorPrice s.oneDayAveragePrice) s.oneDayAveragePrice) (fin 100)

/-- The floor-price rule of `detectUnusualActivity` (lines 129-139). -/
def floorAlerts (s : CollectionStats) : List Alert :=
  if gt (JSNum.abs (priceChange s)) (fin 20) then
    [{ type := if gt (priceChange s) (fin 0) then "FLOOR_PUMP" else "FLOOR_DUMP",
       severity := if gt (JSNum.abs (priceChange s)) (fin 40) then Severity.HIGH
         else Severity.MEDIUM,
       message := "Floor " ++ (if gt (priceChange s) (fin 0) then "pumped" else "dumped") ++ " "
         ++ toFixed (JSNum.abs (priceChange s)) 1 ++ "%",
       extra := [("currentFloor", s.floorPrice), ("previousAvg", s.oneDayAveragePrice)] }]
  else []

/-- The `marketCapChange` constant of `detectUnusualActivity` (line 142). -/
def marketCapChange (s : CollectionStats) : JSNum :=
  sub (mul s.floorPrice s.totalSupply) (mul s.oneDayAveragePrice s.totalSupply)

/-- The market-cap rule of `detectUnusualActivity` (lines 141-151). -/
def marketCapAlerts (s : CollectionStats) : List Alert :=
  if gt (JSNum.abs (marketCapChange s)) (fin 100) then
    [{ type := "MARKET_CAP_SHIFT",
       severity := if gt (JSNum.abs (marketCapChange s)) (fin 500) then Severity.HIGH
         else Severity.MEDIUM,
       message := "Market cap " ++ (if gt (marketCapChange s) (fin 0) then "increased"
         else "decreased") ++ " by " ++ toFixed (JSNum.abs (marketCapChange s)) 0 ++ " ETH",
       extra := [("currentMarketCap", s.marketCap), ("change", marketCapChange s)] }]
  else []

/-- The `alerts` array of `detectUnusualActivity` when it reaches the `return`
(lines 103-151): the four rules push in this order. -/
def buildAlerts (s : CollectionStats) : List Alert :=
  volumeAlerts s ++ salesAlerts s ++ floorAlerts s ++ marketCapAlerts s

/-- The `weights` table of `calculateRiskScore`. -/
def weights : Severity → Nat
  | Severity.HIGH => 40
  | Severity.MEDIUM => 20
  | Severity.LOW => 10

/-- `calculateRiskScore(alerts)`: the `forEach` adds each alert's weight to
`score`, starting from 0; the result is `Math.min(score, 100)`. -/
def calculateRiskScore (alerts : List Alert) : Nat :=
  min (alerts.foldl (fun score alert => score + weights alert.severity) 0) 100

/-- `generateRecommendation(stats, alerts)`. -/
def generateRecommendation (_stats : CollectionStats) (alerts : List Alert) :
    Recommendation :=
  if alerts.length = 0 then
    { action := "HOLD", reasoning := "No significant activity detected", confidence := "LOW" }
  else
    let highAlerts := (alerts.filter (fun a => a.severity = Severity.HIGH)).length
    let volumeSurge := alerts.find? (fun a => a.type = "VOLUME_SURGE")
    let floorPump := alerts.find? (fun a => a.type = "FLOOR_PUMP")
    let salesSpike := alerts.find? (fun a => a.type = "SALES_SPIKE")
    if 2 ≤ highAlerts ∧ (volumeSurge.isSome ∨ floorPump.isSome) then
      { action := "BUY", reasoning := "Multiple strong bullish signals detected",
        confidence := "HIGH" }
    else if salesSpike.isSome ∧ floorPump.isSome then
      { action := "BUY", reasoning := "Organic demand driving price and sales",
        confidence := "MEDIUM" }
    else if (alerts.find? (fun a => a.type = "FLOOR_DUMP")).isSome then
      { action := "WAIT", reasoning := "Price declining, wait for stabilization",
        confidence := "MEDIUM" }
    else
      { action := "WATCH", reasoning := "Activity detected, monitor for confirmation",
        confidence := "LOW" }

/-- `detectUnusualActivity(collectionSlug)`.  `fetched` is what
`fetchCollectionStats` returned for the slug (`none` for `null`, its answer to a
failed request) and `now` what the clock reads. -/
def detectUnusualActivity (collectionSlug : String) (fetched : Option CollectionStats)
    (now : String) : Option ScanResult :=
  match fetched with
  | none => none
  | some stats =>
    let alerts := buildAlerts stats
    some { collection := collectionSlug, timestamp := now, stats := stats, alerts := alerts,
           riskScore := calculateRiskScore alerts,
           recommendation := generateRecommendation stats alerts }

/-- `scanTopCollections(limit)`.  `listing` is the answer to the request for the
collection list: `none` when the request throws (the `catch` then returns `[]`),
otherwise the slugs of `response.data.collections`, each with what
`fetchCollectionStats` returns for it when its turn comes.  Only the first 20
are analysed; an analysis is kept when it is not `null` and has an alert; the
kept ones are sorted by decreasing `riskScore` (`Array.prototype.sort` is
stable). -/
def scanTopCollections (listing : Option (List (String × Option CollectionStats)))
    (now : String) : List ScanResult :=
  match listing with
  | none => []
  | some collections =>
    let analyses := (collections.take 20).filterMap (fun c =>
      match detectUnusualActivity c.1 c.2 now with
      | some analysis => if analysis.alerts.length > 0 then some analysis else none
      | none => none)
    analyses.mergeSort (fun a b => decide (b.riskScore ≤ a.riskScore))

end OpenSeaMonitor

/-! ## `ContinuousMonitor` -/

/-- An entry of `highPriorityAlerts`, the watch list. -/
structure WatchListEntry where
  collection : String
  firstSeen : String
  riskScore : Nat
  recommendation : Recommendation

/-- An entry of `newAlerts` in `runScan`. -/
structure LoggedAlert where
  time : String
  collection : String
  type : String
  severity : Severity
  message : String

/-- An entry of `alertHistory`: the summary of one scan. -/
structure ScanCycleSummary where
  timestamp : String
  totalAlerts : Nat
  highPriorityCount : Nat
  alerts : List LoggedAlert

/-- The object that `saveLog` serialises into the log file. -/
structure LogData where
  lastUpdate : String
  alertHistory : List ScanCycleSummary
  highPriorityAlerts : List WatchListEntry

/-- The fields of a `ContinuousMonitor` instance; `intervalId` is `none` until
`start` arms the timer. -/
structure ContinuousMonitor where
  alertHistory : List ScanCycleSummary
  highPriorityAlerts : List WatchListEntry
  logFile : String
  interval : Nat
  isRunning : Bool
  intervalId : Option Nat

namespace ContinuousMonitor

/-- The instance that the constructor builds. -/
def new : ContinuousMonitor :=
  { alertHistory := [], highPriorityAlerts := [], logFile := "monitoring-log.json",
    interval := 20 * 60 * 1000, isRunning := false, intervalId := none }

/-- The object that `saveLog` writes. -/
def saveLog (m : ContinuousMonitor) (now : String) : LogData :=
  { lastUpdate := now, alertHistory := m.alertHistory,
    highPriorityAlerts := m.highPriorityAlerts }

/-- The variables that the `forEach` of `runScan` updates. -/
structure ScanLoop where
  highPriorityAlerts : List WatchListEntry
  newHighPriorityCount : Nat
  newAlerts : List LoggedAlert

/-- The test `isHighPriority` of `runScan` (lines 78-79). -/
def isHighPriority (collection : ScanResult) : Bool :=
  decide (60 ≤ collection.riskScore) || decide (collection.recommendation.action = "BUY")

/-- One call of the `forEach` callback of `runScan` (lines 77-123), console
output left out. -/
def processCollection (now : String) (st : ScanLoop) (index : Nat) (collection : ScanResult) :
    ScanLoop :=
  let st1 : ScanLoop :=
    if isHighPriority collection then
      let exist := st.highPriorityAlerts.find? (fun a => a.collection = collection.collection)
      { st with
        newHighPriorityCount := st.newHighPriorityCount + 1
        highPriorityAlerts :=
          if exist.isSome then st.highPriorityAlerts
          else st.highPriorityAlerts ++
            [{ collection := collection.collection, firstSeen := now,
               riskScore := collection.riskScore,
               recommendation := collection.recommendation }] }
    else st
  if index < 5 then
    { st1 with
      newAlerts := st1.newAlerts ++ collection.alerts.map (fun alert =>
        { time := now, collection := collection.collection, type := alert.type,
          severity := alert.severity, message := alert.message }) }
  else st1

/-- The `forEach` of `runScan` over the results from position `index` on. -/
def forEachFrom (now : String) : Nat → List ScanResult → ScanLoop → ScanLoop
  | _, [], st => st
  | index, collection :: rest, st =>
    forEachFrom now (index + 1) rest (processCollection now st index collection)

/-- What a scan meets outside the monitor: the answers to the requests of
`scanTopCollections`, the clock, whether the trending section (lines 139-151)
throws, and whether the write of the log file fails. -/
structure ScanEnv where
  listing : Option (List (String × Option CollectionStats))
  now : String
  trendingThrows : Bool
  writeFails : Bool

/-- The monitor after `runScan`, and the log that the scan wrote, if any. -/
structure ScanOutcome where
  monitor : ContinuousMonitor
  written : Option LogData

/-- The fields of the monitor after the first part of `runScan` (lines 66-137):
nothing changes when no collection has an alert; otherwise the watch list is
extended, a summary is pushed on `alertHistory` and the history is cut to its
last 100 entries. -/
def scanUpdate (m : ContinuousMonitor) (unusual : List ScanResult) (now : String) :
    ContinuousMonitor :=
  if unusual.length = 0 then m
  else
    let st := forEachFrom now 0 unusual
      { highPriorityAlerts := m.highPriorityAlerts, newHighPriorityCount := 0, newAlerts := [] }
    let history := m.alertHistory ++
      [{ timestamp := now, totalAlerts := unusual.length,
         highPriorityCount := st.newHighPriorityCount, alerts := st.newAlerts }]
    { m with
      highPriorityAlerts := st.highPriorityAlerts
      alertHistory :=
        if history.length > 100 then history.drop (history.length - 100) else history }

/-- `runScan()`: the scan of the top collections, the update of the fields, the
trending section, then `saveLog`; an exception in the last two is caught and
only logged, so the fields keep their update and the log is not written. -/
def runScan (m : ContinuousMonitor) (env : ScanEnv) : ScanOutcome :=
  let m1 := scanUpdate m (OpenSeaMonitor.scanTopCollections env.listing env.now) env.now
  { monitor := m1,
    written := if env.trendingThrows || env.writeFails then none
      else some (saveLog m1 env.now) }

end ContinuousMonitor

/-! ## The log file, `initialize`, `start` and `stop` -/

/-- What the log file holds when it can be read: a text that `JSON.parse`
rejects, the JSON value `null`, a JSON value whose `alertHistory` is missing or
falsy, or the text that `JSON.stringify` gives for a log object, which
`JSON.parse` reads back as that object.  A JSON value whose `alertHistory` is
truthy without being an array of summaries is outside the model. -/
inductive FileContent where
  | invalid (text : String)
  | jsonNull
  | noHistory
  | log (data : LogData)

/-- The log file: missing, present but unreadable, or readable. -/
inductive LogFileState where
  | absent
  | unreadable
  | content (c : FileContent)

namespace ContinuousMonitor

/-- `fs.readFile(this.logFile, 'utf8')`: rejects when the file is missing or
cannot be read. -/
def readFile : LogFileState → Except String FileContent
  | LogFileState.absent => Except.error "ENOENT"
  | LogFileState.unreadable => Except.error "EACCES"
  | LogFileState.content c => Except.ok c

/-- `JSON.parse(data).alertHistory || []` (line 33): `JSON.parse` throws on a
text that is not JSON, the property access throws on `null`. -/
def parseAlertHistory : FileContent → Except String (List ScanCycleSummary)
  | FileContent.invalid _ => Except.error "SyntaxError"
  | FileContent.jsonNull => Except.error "TypeError"
  | FileContent.noHistory => Except.ok []
  | FileContent.log data => Except.ok data.alertHistory

/-- The method `initialize()` of the source, named `init` here because the
source's name is reserved in Lean: the `try` reads and parses the file, the
`catch` starts from an empty history. -/
def init (m : ContinuousMonitor) (file : LogFileState) : ContinuousMonitor :=
  match readFile file >>= parseAlertHistory with
  | Except.ok history => { m with alertHistory := history }
  | Except.error _ => { m with alertHistory := [] }

/-- The `try` block of `runScan` (lines 64-171): the fields of the monitor when
the block ends or throws, with the exception thrown or the log written. -/
def runScanTry (m : ContinuousMonitor) (env : ScanEnv) :
    ContinuousMonitor × Except String LogData :=
  let m1 := scanUpdate m (OpenSeaMonitor.scanTopCollections env.listing env.now) env.now
  if env.trendingThrows then (m1, Except.error "TypeError")
  else if env.writeFails then (m1, Except.error "EIO")
  else (m1, Except.ok (saveLog m1 env.now))

/-- The monitor after a sequence of scans, one `runScan` for each element. -/
def runScans (m : ContinuousMonitor) (envs : List ScanEnv) : ContinuousMonitor :=
  envs.foldl (fun m env => (runScan m env).monitor) m

/-- The monitor with what surrounds it: the log file, the interval timers that
are armed, and the number of `SIGINT` handlers registered. -/
structure World where
  monitor : ContinuousMonitor
  file : LogFileState
  timers : List Nat
  sigintHandlers : Nat

/-- The log file after a scan: replaced by the written log, if there is one. -/
def writeLog (file : LogFileState) (written : Option LogData) : LogFileState :=
  match written with
  | some data => LogFileState.content (FileContent.log data)
  | none => file

/-- `start()`: nothing when the monitor is running; otherwise the flag is set,
the log is loaded, one scan runs, the timer `timer` is armed and a `SIGINT`
handler is registered. -/
def start (w : World) (env : ScanEnv) (timer : Nat) : World :=
  if w.monitor.isRunning then w
  else
    let out := runScan (init { w.monitor with isRunning := true } w.file) env
    { monitor := { out.monitor with intervalId := some timer },
      file := writeLog w.file out.written,
      timers := timer :: w.timers,
      sigintHandlers := w.sigintHandlers + 1 }

/-- `stop()`: nothing when the monitor is not running; otherwise the flag is
cleared, the timer is cleared and the log is saved.  The second component tells
whether `stop` threw, which it does when the write fails. -/
def stop (w : World) (now : String) (writeFails : Bool) : World × Bool :=
  if !w.monitor.isRunning then (w, false)
  else
    let m1 := { w.monitor with isRunning := false }
    let timers :=
      match m1.intervalId with
      | some timer => w.timers.erase timer
      | none => w.timers
    if writeFails then ({ w with monitor := m1, timers := timers }, true)
    else
      ({ w with monitor := m1, timers := timers,
                file := LogFileState.content (FileContent.log (saveLog m1 now)) }, false)

/-- The states of the log file that the program itself brings about.  The file
does not hold a log when the monitor has not written one yet; `saveLog`, the
only writer of the file, is called at the end of `runScan` and in `stop`, each
time with the fields of a monitor that loaded the file as it then was and ran
some scans. -/
inductive Persisted : LogFileState → Prop where
  | noLog (file : LogFileState)
      (h : ∀ data, file ≠ LogFileState.content (FileContent.log data)) : Persisted file
  | written (m : ContinuousMonitor) (file : LogFileState) (envs : List ScanEnv) (now : String)
      (h : Persisted file) :
      Persisted
        (LogFileState.content (FileContent.log (saveLog (runScans (init m file) envs) now)))

end ContinuousMonitor

/-! ## The API key -/

/-- The field of an `OpenSeaMonitor` instance that decides whether a request can
be sent: the API key, `none` when it is `undefined`. -/
structure OpenSeaMonitor where
  apiKey : Option String

namespace OpenSeaMonitor

/-- JavaScript truthiness of an optional string: `undefined` and the empty
string are falsy. -/
def truthy : Option String → Bool
  | none => false
  | some key => decide (key ≠ "")

/-- The constructor (lines 6-14): `apiKey || process.env.OPENSEA_API_KEY`, with
`envKey` what the environment holds.  It has no `throw`. -/
def create (apiKey envKey : Option String) : OpenSeaMonitor :=
  { apiKey := if truthy apiKey then apiKey else envKey }

/-- `getHeaders()` (lines 16-24): throws when the key is falsy, otherwise gives
the two headers. -/
def getHeaders (mon : OpenSeaMonitor) : Except String (List (String × String)) :=
  match mon.apiKey with
  | some key =>
    if key ≠ "" then Except.ok [("Accept", "application/json"), ("X-API-KEY", key)]
    else Except.error
      "OpenSea API key not configured. Please set OPENSEA_API_KEY in .env file"
  | none => Except.error
      "OpenSea API key not configured. Please set OPENSEA_API_KEY in .env file"

end OpenSeaMonitor

namespace ContinuousMonitor

/-- What the marketplace answers to a monitor that sends a key: the collection
list with the stats of each collection, and whether the trending section of
`runScan` throws on the trending collections it gets. -/
structure ServerAnswers where
  listing : Option (List (String × Option CollectionStats))
  trendingThrows : Bool

/-- The monitor of a `ContinuousMonitor` (line 22):
`new OpenSeaMonitor(process.env.OPENSEA_API_KEY)`. -/
def monitorOf (envKey : Option String) : OpenSeaMonitor :=
  OpenSeaMonitor.create envKey envKey

/-- What a scan meets, from the monitor's key and the marketplace.  When
`getHeaders` throws, it does so inside the `try` of `scanTopCollections` and of
`findTrendingCollections`: the first returns `[]` as for a failed request, the
second returns `[]`, on which the trending section does not throw. -/
def scanEnv (mon : OpenSeaMonitor) (server : ServerAnswers) (now : String)
    (writeFails : Bool) : ScanEnv :=
  match mon.getHeaders with
  | Except.error _ =>
    { listing := none, now := now, trendingThrows := false, writeFails := writeFails }
  | Except.ok _ =>
    { listing := server.listing, now := now, trendingThrows := server.trendingThrows,
      writeFails := writeFails }

end ContinuousMonitor

/-! ## Whale patterns -/

/-- A sale as `trackWhaleActivity` passes it on; `time` is the time value, in
milliseconds, of `new Date(tx.timestamp)`, NaN for an invalid date. -/
structure WhaleTransaction where
  tokenId : String
  price : JSNum
  toAddress : String
  time : JSNum

/-- An entry of the `whales` array of `trackWhaleActivity`. -/
structure Whale where
  address : String
  purchases : List WhaleTransaction
  totalSpent : JSNum

/-- The object returned by `analyzeWhalePattern`; `urgency` is absent from the
`NO_WHALES` answer. -/
structure WhalePattern where
  pattern : String
  interpretation : String
  urgency : Option String

namespace OpenSeaMonitor

/-- The test of the filter in `analyzeWhalePattern` (lines 304-308):
`txTime > hourAgo`, with `now` the value of `Date.now()`. -/
def isRecent (now : Int) (tx : WhaleTransaction) : Bool :=
  JSNum.gt tx.time (JSNum.fin ((now : ℚ) - 60 * 60 * 1000))

/-- `analyzeWhalePattern(whales, transactions)` (lines 296-331). -/
def analyzeWhalePattern (whales : List Whale) (transactions : List WhaleTransaction)
    (now : Int) : WhalePattern :=
  if whales.length = 0 then
    { pattern := "NO_WHALES", interpretation := "No significant whale activity",
      urgency := none }
  else
    let recentTxCount := (transactions.filter (isRecent now)).length
    if recentTxCount > 5 then
      { pattern := "WHALE_ACCUMULATION",
        interpretation := "Whales are actively accumulating - bullish signal",
        urgency := some "HIGH" }
    else if decide (whales.length > 3) &&
        (match whales.head? with
         | some whale => JSNum.gt whale.totalSpent (JSNum.fin 50)
         | none => false) then
      { pattern := "MAJOR_WHALE_INTEREST",
        interpretation := "Large holders showing strong interest",
        urgency := some "MEDIUM" }
    else
      { pattern := "NORMAL_WHALE_ACTIVITY",
        interpretation := "Standard whale trading patterns",
        urgency := some "LOW" }

end OpenSeaMonitor

/-! ## Sample inputs -/

/-- Stats with the six fields that the detector reads set as given, the other
fields zero. -/
def statsOf (floorPrice oneDayChange oneDaySales oneDayAveragePrice thirtyDaySales
    totalSupply : JSNum) : CollectionStats :=
  { floorPrice := floorPrice, floorPriceSymbol := "ETH", oneDayVolume := JSNum.fin 0,
    oneDayChange := oneDayChange, oneDaySales := oneDaySales,
    oneDayAveragePrice := oneDayAveragePrice, sevenDayVolume := JSNum.fin 0,
    sevenDayChange := JSNum.fin 0, sevenDaySales := JSNum.fin 0,
    thirtyDayVolume := JSNum.fin 0, thirtyDayChange := JSNum.fin 0,
    thirtyDaySales := thirtyDaySales, totalVolume := JSNum.fin 0, totalSales := JSNum.fin 0,
    totalSupply := totalSupply, numOwners := JSNum.fin 0, marketCap := JSNum.fin 0,
    timestamp := "" }

/-- A collection at rest: floor 1 on an average price of 1, no change. -/
def quietStats : CollectionStats :=
  statsOf (JSNum.fin 1) (JSNum.fin 0) (JSNum.fin 0) (JSNum.fin 1) (JSNum.fin 0) (JSNum.fin 10)

/-- A collection whose floor of 3 stands on an average price of 2. -/
def pumpStats : CollectionStats :=
  statsOf (JSNum.fin 3) (JSNum.fin 0) (JSNum.fin 0) (JSNum.fin 2) (JSNum.fin 0) (JSNum.fin 10)

/-- An alert of a given type and severity. -/
def alertOf (type : String) (severity : Severity) : Alert :=
  { type := type, severity := severity, message := "", extra := [] }

/-- A scan that lists the single collection `quiet`, at rest. -/
def quietEnv : ContinuousMonitor.ScanEnv :=
  { listing := some [("quiet", some quietStats)], now := "2025-01-01T00:00:00.000Z",
    trendingThrows := false, writeFails := false }


/-- A collection with a volume surge of 350% and 40 sales against 300 in 30
days: two HIGH alerts. -/
def hotStats : CollectionStats :=
  statsOf (JSNum.fin 1) (JSNum.fin 350) (JSNum.fin 40) (JSNum.fin 1) (JSNum.fin 300)
    (JSNum.fin 10)

/-- A scan that lists the single collection `hot`. -/
def hotEnv : ContinuousMonitor.ScanEnv :=
  { listing := some [("hot", some hotStats)], now := "2025-01-02T00:00:00.000Z",
    trendingThrows := false, writeFails := false }

/-- A scan whose request for the collection list fails. -/
def idleEnv : ContinuousMonitor.ScanEnv :=
  { listing := none, now := "2025-01-02T00:00:00.000Z",
    trendingThrows := false, writeFails := false }

/-- A watch-list entry for `hot` from an earlier scan, with a score of 60. -/
def staleEntry : WatchListEntry :=
  { collection := "hot", firstSeen := "2025-01-01T00:00:00.000Z", riskScore := 60,
    recommendation := { action := "WATCH",
                        reasoning := "Activity detected, monitor for confirmation",
                        confidence := "LOW" } }

/-- A monitor whose watch list holds `staleEntry`. -/
def staleMonitor : ContinuousMonitor :=
  { ContinuousMonitor.new with highPriorityAlerts := [staleEntry] }

/-- The summary of a scan without alerts to log. -/
def emptySummary : ScanCycleSummary :=
  { timestamp := "2025-01-01T00:00:00.000Z", totalAlerts := 1, highPriorityCount := 0,
    alerts := [] }

/-- A log file whose history has 101 entries. -/
def longLog : LogFileState :=
  LogFileState.content (FileContent.log
    { lastUpdate := "2025-01-01T00:00:00.000Z",
      alertHistory := List.replicate 101 emptySummary, highPriorityAlerts := [] })

/-- Five listed collections that all raise an alert, the fetch of the third
one failing. -/
def fiveListing : List (String × Option CollectionStats) :=
  [("c1", some pumpStats), ("c2", some pumpStats), ("c3", none), ("c4", some pumpStats),
   ("c5", some pumpStats)]

/-- A monitor that is running, with its timer 1 armed. -/
def runningWorld : ContinuousMonitor.World :=
  { monitor := { staleMonitor with isRunning := true, intervalId := some 1 },
    file := longLog, timers := [1], sigintHandlers := 1 }

/-- A monitor that was never started. -/
def idleWorld : ContinuousMonitor.World :=
  { monitor := ContinuousMonitor.new, file := LogFileState.absent, timers := [],
    sigintHandlers := 0 }

/-- A collection with a floor of 1.3 and no average price: the baseline is 0. -/
def zeroAvgStats : CollectionStats :=
  statsOf (JSNum.lit (13 / 10)) (JSNum.fin 0) (JSNum.fin 0) (JSNum.fin 0) (JSNum.fin 0)
    (JSNum.fin 10)

/-- The scenario of the spec: a floor of 1.30 on an average price of 1.00. -/
def scenarioStats : CollectionStats :=
  statsOf (JSNum.lit (13 / 10)) (JSNum.fin 0) (JSNum.fin 0) (JSNum.fin 1) (JSNum.fin 0)
    (JSNum.fin 10)

/-- A collection with 40 sales against 300 in 30 days, a floor of 3 on an
average price of 2 and a supply of 3000. -/
def capStats : CollectionStats :=
  statsOf (JSNum.fin 3) (JSNum.fin 0) (JSNum.fin 40) (JSNum.fin 2) (JSNum.fin 300)
    (JSNum.fin 3000)

/-- Six listed collections, each with the two alerts of `hotStats`. -/
def sixListing : List (String × Option CollectionStats) :=
  [("h1", some hotStats), ("h2", some hotStats), ("h3", some hotStats),
   ("h4", some hotStats), ("h5", some hotStats), ("h6", some hotStats)]

/-- A scan that lists the six collections of `sixListing`. -/
def sixEnv : ContinuousMonitor.ScanEnv :=
  { listing := some sixListing, now := "2025-01-02T00:00:00.000Z",
    trendingThrows := false, writeFails := false }

/-- A marketplace that lists the collection `hot`. -/
def hotServer : ContinuousMonitor.ServerAnswers :=
  { listing := some [("hot", some hotStats)], trendingThrows := false }

/-- A whale that spent 60. -/
def bigWhale : Whale :=
  { address := "0xa", purchases := [], totalSpent := JSNum.fin 60 }

/-- A scan that lists the collection `hot` twice. -/
def twiceEnv : ContinuousMonitor.ScanEnv :=
  { listing := some [("hot", some hotStats), ("hot", some hotStats)],
    now := "2025-01-02T00:00:00.000Z", trendingThrows := false, writeFails := false }

/-- A floor of 6.8 on an average price of 8.5. -/
def nearTwentyStats : CollectionStats :=
  statsOf (JSNum.lit (34 / 5)) (JSNum.fin 0) (JSNum.fin 0) (JSNum.fin (17 / 2)) (JSNum.fin 0)
    (JSNum.fin 10)

/-- A floor of 0.6 on an average price of 1. -/
def nearFortyStats : CollectionStats :=
  statsOf (JSNum.lit (3 / 5)) (JSNum.fin 0) (JSNum.fin 0) (JSNum.fin 1) (JSNum.fin 0)
    (JSNum.fin 10)

/-- A floor of 3.6 on an average price of 3. -/
def decimalTwentyStats : CollectionStats :=
  statsOf (JSNum.lit (18 / 5)) (JSNum.fin 0) (JSNum.fin 0) (JSNum.fin 3) (JSNum.fin 0)
    (JSNum.fin 10)

/-- A floor of 2.13 on an average price of 1.13, with a supply of 100. -/
def capEdgeStats : CollectionStats :=
  statsOf (JSNum.lit (213 / 100)) (JSNum.fin 0) (JSNum.fin 0) (JSNum.lit (113 / 100))
    (JSNum.fin 0) (JSNum.fin 100)

/-- A floor of `2^1023` on an average price of `2^1022`, with a supply of 4:
both products overflow. -/
def capOverflowStats : CollectionStats :=
  statsOf (JSNum.fin (2 ^ 1023)) (JSNum.fin 0) (JSNum.fin 0) (JSNum.fin (2 ^ 1022))
    (JSNum.fin 0) (JSNum.fin 4)

/-- A floor of 103 on an average price of 80. -/
def roundedStats : CollectionStats :=
  statsOf (JSNum.fin 103) (JSNum.fin 0) (JSNum.fin 0) (JSNum.fin 80) (JSNum.fin 0)
    (JSNum.fin 1)

/-- Twenty-one listed collections: the fetch of the first one fails, nineteen
are at rest, and the last one is `hot`. -/
def overfullListing : List (String × Option CollectionStats) :=
  ("failing", none) :: List.replicate 19 ("quiet", some quietStats) ++ [("hot", some hotStats)]

/-- A log that the monitor wrote after one scan of the collection `hot`, on a
first run without a log file. -/
def writtenLog : LogFileState :=
  LogFileState.content (FileContent.log
    (ContinuousMonitor.saveLog
      (ContinuousMonitor.runScans
        (ContinuousMonitor.init ContinuousMonitor.new LogFileState.absent) [hotEnv])
      "2025-01-02T00:00:00.000Z"))

/-! ## Properties of the detector -/

namespace OpenSeaMonitor

open JSNum

/-- The alerts of a scan result are those of `buildAlerts` on the fetched stats. -/
theorem detectUnusualActivity_alerts (slug now : String) (s : CollectionStats) :
    (detectUnusualActivity slug (some s) now).map (fun r => r.alerts) = some (buildAlerts s) :=
  rfl

theorem type_of_mem_volumeAlerts {s : CollectionStats} {a : Alert} (h : a ∈ volumeAlerts s) :
    a.type = "VOLUME_SURGE" := by
  unfold volumeAlerts at h
  split at h
  · simp at h; subst h; rfl
  · simp at h

theorem type_of_mem_salesAlerts {s : CollectionStats} {a : Alert} (h : a ∈ salesAlerts s) :
    a.type = "SALES_SPIKE" := by
  unfold salesAlerts at h
  split at h
  · simp at h; subst h; rfl
  · simp at h

theorem type_of_mem_floorAlerts {s : CollectionStats} {a : Alert} (h : a ∈ floorAlerts s) :
    a.type = "FLOOR_PUMP" ∨ a.type = "FLOOR_DUMP" := by
  unfold floorAlerts at h
  split at h
  · simp at h; subst h
    by_cases hp : gt (priceChange s) (fin 0) = true <;> simp [hp]
  · simp at h

theorem type_of_mem_marketCapAlerts {s : CollectionStats} {a : Alert}
    (h : a ∈ marketCapAlerts s) : a.type = "MARKET_CAP_SHIFT" := by
  unfold marketCapAlerts at h
  split at h
  · simp at h; subst h; rfl
  · simp at h

/-- The alerts of type `VOLUME_SURGE` are those of the volume rule. -/
theorem filter_volume (s : CollectionStats) :
    (buildAlerts s).filter (fun a => decide (a.type = "VOLUME_SURGE")) = volumeAlerts s := by
  have h1 : (volumeAlerts s).filter (fun a => decide (a.type = "VOLUME_SURGE"))
      = volumeAlerts s :=
    List.filter_eq_self.2 (fun a ha => by simp [type_of_mem_volumeAlerts ha])
  have h2 : (salesAlerts s).filter (fun a => decide (a.type = "VOLUME_SURGE")) = [] :=
    List.filter_eq_nil_iff.2 (fun a ha => by simp [type_of_mem_salesAlerts ha])
  have h3 : (floorAlerts s).filter (fun a => decide (a.type = "VOLUME_SURGE")) = [] :=
    List.filter_eq_nil_iff.2 (fun a ha => by
      rcases type_of_mem_floorAlerts ha with h | h <;> simp [h])
  have h4 : (marketCapAlerts s).filter (fun a => decide (a.type = "VOLUME_SURGE")) = [] :=
    List.filter_eq_nil_iff.2 (fun a ha => by simp [type_of_mem_marketCapAlerts ha])
  simp only [buildAlerts, List.filter_append, h1, h2, h3, h4, List.append_nil]

/-- The alerts of type `SALES_SPIKE` are those of the sales rule. -/
theorem filter_sales (s : CollectionStats) :
    (buildAlerts s).filter (fun a => decide (a.type = "SALES_SPIKE")) = salesAlerts s := by
  have h1 : (volumeAlerts s).filter (fun a => decide (a.type = "SALES_SPIKE")) = [] :=
    List.filter_eq_nil_iff.2 (fun a ha => by simp [type_of_mem_volumeAlerts ha])
  have h2 : (salesAlerts s).filter (fun a => decide (a.type = "SALES_SPIKE"))
      = salesAlerts s :=
    List.filter_eq_self.2 (fun a ha => by simp [type_of_mem_salesAlerts ha])
  have h3 : (floorAlerts s).filter (fun a => decide (a.type = "SALES_SPIKE")) = [] :=
    List.filter_eq_nil_iff.2 (fun a ha => by
      rcases type_of_mem_floorAlerts ha with h | h <;> simp [h])
  have h4 : (marketCapAlerts s).filter (fun a => decide (a.type = "SALES_SPIKE")) = [] :=
    List.filter_eq_nil_iff.2 (fun a ha => by simp [type_of_mem_marketCapAlerts ha])
  simp only [buildAlerts, List.filter_append, h1, h2, h3, h4, List.append_nil, List.nil_append]

/-- The alerts of type `FLOOR_PUMP` or `FLOOR_DUMP` are those of the floor rule. -/
theorem filter_floor (s : CollectionStats) :
    (buildAlerts s).filter (fun a => decide (a.type = "FLOOR_PUMP" ∨ a.type = "FLOOR_DUMP"))
      = floorAlerts s := by
  have h1 : (volumeAlerts s).filter
      (fun a => decide (a.type = "FLOOR_PUMP" ∨ a.type = "FLOOR_DUMP")) = [] :=
    List.filter_eq_nil_iff.2 (fun a ha => by simp [type_of_mem_volumeAlerts ha])
  have h2 : (salesAlerts s).filter
      (fun a => decide (a.type = "FLOOR_PUMP" ∨ a.type = "FLOOR_DUMP")) = [] :=
    List.filter_eq_nil_iff.2 (fun a ha => by simp [type_of_mem_salesAlerts ha])
  have h3 : (floorAlerts s).filter
      (fun a => decide (a.type = "FLOOR_PUMP" ∨ a.type = "FLOOR_DUMP")) = floorAlerts s :=
    List.filter_eq_self.2 (fun a ha => by
      rcases type_of_mem_floorAlerts ha with h | h <;> simp [h])
  have h4 : (marketCapAlerts s).filter
      (fun a => decide (a.type = "FLOOR_PUMP" ∨ a.type = "FLOOR_DUMP")) = [] :=
    List.filter_eq_nil_iff.2 (fun a ha => by simp [type_of_mem_marketCapAlerts ha])
  simp only [buildAlerts, List.filter_append, h1, h2, h3, h4, List.append_nil, List.nil_append]

/-- The alerts of type `MARKET_CAP_SHIFT` are those of the market-cap rule. -/
theorem filter_marketCap (s : CollectionStats) :
    (buildAlerts s).filter (fun a => decide (a.type = "MARKET_CAP_SHIFT"))
      = marketCapAlerts s := by
  have h1 : (volumeAlerts s).filter (fun a => decide (a.type = "MARKET_CAP_SHIFT")) = [] :=
    List.filter_eq_nil_iff.2 (fun a ha => by simp [type_of_mem_volumeAlerts ha])
  have h2 : (salesAlerts s).filter (fun a => decide (a.type = "MARKET_CAP_SHIFT")) = [] :=
    List.filter_eq_nil_iff.2 (fun a ha => by simp [type_of_mem_salesAlerts ha])
  have h3 : (floorAlerts s).filter (fun a => decide (a.type = "MARKET_CAP_SHIFT")) = [] :=
    List.filter_eq_nil_iff.2 (fun a ha => by
      rcases type_of_mem_floorAlerts ha with h | h <;> simp [h])
  have h4 : (marketCapAlerts s).filter (fun a => decide (a.type = "MARKET_CAP_SHIFT"))
      = marketCapAlerts s :=
    List.filter_eq_self.2 (fun a ha => by simp [type_of_mem_marketCapAlerts ha])
  simp only [buildAlerts, List.filter_append, h1, h2, h3, h4, List.append_nil, List.nil_append]

/-- Membership in `buildAlerts` with a condition on the type is membership in
the filtered list. -/
theorem mem_filter_type {s : CollectionStats} {a : Alert} (p : Alert → Prop)
    [DecidablePred p] (ha : a ∈ buildAlerts s) (hp : p a) :
    a ∈ (buildAlerts s).filter (fun a => decide (p a)) :=
  List.mem_filter.2 ⟨ha, by simpa using hp⟩

end OpenSeaMonitor

/-! ## Arithmetic of the number model -/

namespace JSNum

theorem jsmul_comm (a b : JSNum) : mul a b = mul b a := by
  cases a <;> cases b <;> simp [mul, sgn, ofSign, mul_comm]

/-- `a > b` and `b > a` exclude one another. -/
theorem jsgt_asymm {a b : JSNum} (h : gt a b = true) : gt b a = false := by
  cases a <;> cases b <;> simp_all [gt]
  exact le_of_lt h

/-- Rounding to a double keeps a value that is not negative from becoming
negative. -/
theorem round64_nonneg {q : ℚ} (hq : 0 ≤ q) :
    round64 q = pinf ∨ ∃ r : ℚ, 0 ≤ r ∧ round64 q = fin r := by
  by_cases h0 : q = 0
  · right; exact ⟨0, le_refl 0, by simp [round64, h0]⟩
  · have hpos : 0 < q := lt_of_le_of_ne hq (Ne.symm h0)
    unfold round64
    simp only [if_neg h0, if_pos hpos]
    split
    · left; rfl
    · right
      exact ⟨_, by positivity, rfl⟩

/-- Rounding to a double keeps a value that is not positive from becoming
positive. -/
theorem round64_nonpos {q : ℚ} (hq : q ≤ 0) :
    round64 q = ninf ∨ ∃ r : ℚ, r ≤ 0 ∧ round64 q = fin r := by
  by_cases h0 : q = 0
  · right; exact ⟨0, le_refl 0, by simp [round64, h0]⟩
  · have hneg : ¬ 0 < q := not_lt.2 hq
    unfold round64
    simp only [if_neg h0, if_neg hneg]
    split
    · left; rfl
    · right
      refine ⟨_, ?_, rfl⟩
      apply neg_nonpos.2
      positivity

/-- With a positive baseline `A` and a floor `F` above it, the percentage
`((F - A) / A) * 100` of the code is not negative. -/
theorem percent_nonneg (F A : JSNum) (hA : gt A (fin 0) = true) (h : gt F A = true) :
    gt (fin 0) (mul (div (sub F A) A) (fin 100)) = false := by
  cases A with
  | fin a =>
    have ha : 0 < a := by simpa [gt] using hA
    have ha0 : a ≠ 0 := ne_of_gt ha
    cases F with
    | fin f =>
      have hf : a < f := by simpa [gt] using h
      have hsub : sub (fin f) (fin a) = round64 (f - a) := rfl
      rw [hsub]
      rcases round64_nonneg (le_of_lt (sub_pos.2 hf)) with h1 | ⟨x, hx, h1⟩
      · rw [h1]
        simp [div, mul, sgn, ofSign, gt, not_lt.2 (le_of_lt ha)]
      · rw [h1]
        have hdiv : div (fin x) (fin a) = round64 (x / a) := by simp [div, ha0]
        rw [hdiv]
        rcases round64_nonneg (div_nonneg hx (le_of_lt ha)) with h2 | ⟨y, hy, h2⟩
        · rw [h2]
          simp [mul, sgn, ofSign, gt]
        · rw [h2]
          have hmul : mul (fin y) (fin 100) = round64 (y * 100) := rfl
          rw [hmul]
          rcases round64_nonneg (mul_nonneg hy (by norm_num : (0 : ℚ) ≤ 100)) with
            h3 | ⟨z, hz, h3⟩
          · rw [h3]; simp [gt]
          · rw [h3]; simp [gt, hz]
    | pinf => simp [sub, div, mul, gt, sgn, ofSign, not_lt.2 (le_of_lt ha)]
    | ninf => simp [gt] at h
    | nan => simp [gt] at h
  | pinf => cases F <;> simp [gt] at h
  | ninf => simp [gt] at hA
  | nan => simp [gt] at hA

/-- With a positive baseline `A` and a floor `F` below it, the percentage
`((F - A) / A) * 100` of the code is not positive. -/
theorem percent_nonpos (F A : JSNum) (hA : gt A (fin 0) = true) (h : gt A F = true) :
    gt (mul (div (sub F A) A) (fin 100)) (fin 0) = false := by
  cases A with
  | fin a =>
    have ha : 0 < a := by simpa [gt] using hA
    have ha0 : a ≠ 0 := ne_of_gt ha
    cases F with
    | fin f =>
      have hf : f < a := by simpa [gt] using h
      have hsub : sub (fin f) (fin a) = round64 (f - a) := rfl
      rw [hsub]
      rcases round64_nonpos (le_of_lt (sub_neg.2 hf)) with h1 | ⟨x, hx, h1⟩
      · rw [h1]
        simp [div, mul, sgn, ofSign, gt, not_lt.2 (le_of_lt ha)]
      · rw [h1]
        have hdiv : div (fin x) (fin a) = round64 (x / a) := by simp [div, ha0]
        rw [hdiv]
        rcases round64_nonpos (div_nonpos_of_nonpos_of_nonneg hx (le_of_lt ha)) with
          h2 | ⟨y, hy, h2⟩
        · rw [h2]
          simp [mul, sgn, ofSign, gt]
        · rw [h2]
          have hmul : mul (fin y) (fin 100) = round64 (y * 100) := rfl
          rw [hmul]
          rcases round64_nonpos
            (mul_nonpos_of_nonpos_of_nonneg hy (by norm_num : (0 : ℚ) ≤ 100)) with
            h3 | ⟨z, hz, h3⟩
          · rw [h3]; simp [gt]
          · rw [h3]; simp [gt, hz]
    | pinf => simp [gt] at h
    | ninf => simp [sub, div, mul, gt, sgn, ofSign, not_lt.2 (le_of_lt ha)]
    | nan => simp [gt] at h
  | pinf =>
    cases F with
    | fin f => simp [sub, div, mul, gt, sgn]
    | pinf => simp [gt] at h
    | ninf => simp [sub, div, mul, gt, sgn]
    | nan => simp [gt] at h
  | ninf => simp [gt] at hA
  | nan => simp [gt] at hA

/-- With a positive baseline `A` and a floor `F` neither above nor below it,
the percentage `((F - A) / A) * 100` of the code is `0` or `NaN`: its magnitude
is not above 20. -/
theorem percent_small (F A : JSNum) (hA : gt A (fin 0) = true) (h1 : gt F A = false)
    (h2 : gt A F = false) :
    gt (abs (mul (div (sub F A) A) (fin 100))) (fin 20) = false := by
  cases A with
  | fin a =>
    have ha : 0 < a := by simpa [gt] using hA
    have ha0 : a ≠ 0 := ne_of_gt ha
    cases F with
    | fin f =>
      have hfa : f = a := by
        simp only [gt, decide_eq_false_iff_not, not_lt] at h1 h2
        exact le_antisymm h1 h2
      subst hfa
      simp [sub, div, mul, abs, gt, round64, ha0]
    | pinf => simp [gt] at h1
    | ninf => simp [gt] at h2
    | nan => simp [sub, div, mul, abs, gt, sgn]
  | pinf =>
    cases F with
    | fin f => simp [gt] at h2
    | pinf => simp [sub, div, mul, abs, gt, sgn]
    | ninf => simp [gt] at h2
    | nan => simp [sub, div, mul, abs, gt, sgn]
  | ninf => simp [gt] at hA
  | nan => simp [gt] at hA

/-- A value of magnitude above 20 is above or below 0. -/
theorem gt_zero_or_of_abs (p : JSNum) (h : gt (abs p) (fin 20) = true) :
    gt p (fin 0) = true ∨ gt (fin 0) p = true := by
  cases p with
  | fin x =>
    simp only [abs, gt, decide_eq_true_eq] at h ⊢
    rcases lt_or_le 0 x with hx | hx
    · exact Or.inl hx
    · right
      rcases lt_or_eq_of_le hx with hx | hx
      · exact hx
      · rw [hx] at h; simp at h; linarith
  | pinf => left; rfl
  | ninf => right; rfl
  | nan => simp [abs, gt] at h


/-- Values of the number model, as JavaScript prints them: the double nearest
to a decimal, rounded differences, products and quotients, a value of
magnitude above `10^21`, a small value, and products that overflow. -/
theorem double_examples :
    toStr (lit (1 / 10)) = "0.1" ∧
    toStr (sub (lit (3 / 10)) (lit (1 / 10))) = "0.19999999999999998" ∧
    toStr (mul (lit (11 / 10)) (lit (11 / 10))) = "1.2100000000000002" ∧
    toStr (div (fin 1) (fin 3)) = "0.3333333333333333" ∧
    toStr (mul (div (sub (lit (13 / 10)) (fin 1)) (fin 1)) (fin 100)) = "30.000000000000004" ∧
    toStr (fin (2 ^ 70)) = "1.1805916207174113e+21" ∧
    toFixed (fin (2 ^ 70)) 1 = "1.1805916207174113e+21" ∧
    toStr (lit (1 / 10000000)) = "1e-7" ∧
    toFixed (lit (5 / 4)) 1 = "1.3" ∧
    toFixed (lit (201 / 200)) 2 = "1.00" ∧
    toFixed (lit (-1 / 100)) 1 = "-0.0" ∧
    mul (fin (2 ^ 1023)) (fin 4) = pinf ∧
    sub (mul (fin (2 ^ 1023)) (fin 4)) (mul (fin (2 ^ 1022)) (fin 4)) = nan := by
  decide!

end JSNum

/-! ## The four rules of the detector -/

namespace OpenSeaMonitor

open JSNum

/-- C1: the alert list that `detectUnusualActivity` builds contains a
VOLUME_SURGE alert if and only if `oneDayChange > 100`; when it does there is
exactly one, and a VOLUME_SURGE alert has severity HIGH when
`oneDayChange > 300` and MEDIUM otherwise.  A change of exactly 100 does not
trigger, a change of 100.01 does. -/
theorem volume_surge_rule (s : CollectionStats) :
    ((∃ a ∈ buildAlerts s, a.type = "VOLUME_SURGE") ↔ gt s.oneDayChange (fin 100) = true) ∧
    (gt s.oneDayChange (fin 100) = true →
      ((buildAlerts s).filter (fun a => decide (a.type = "VOLUME_SURGE"))).length = 1) ∧
    (∀ a ∈ buildAlerts s, a.type = "VOLUME_SURGE" →
      a.severity = if gt s.oneDayChange (fin 300) = true then Severity.HIGH
        else Severity.MEDIUM) ∧
    (s.oneDayChange = fin 100 → ∀ a ∈ buildAlerts s, a.type ≠ "VOLUME_SURGE") ∧
    (s.oneDayChange = fin (10001 / 100) → ∃ a ∈ buildAlerts s, a.type = "VOLUME_SURGE") := by
  have key : ∀ a, (a ∈ buildAlerts s ∧ a.type = "VOLUME_SURGE") ↔ a ∈ volumeAlerts s := by
    intro a
    rw [← filter_volume s, List.mem_filter]
    simp
  have hiff : (∃ a ∈ buildAlerts s, a.type = "VOLUME_SURGE") ↔
      gt s.oneDayChange (fin 100) = true := by
    constructor
    · rintro ⟨a, ha, hty⟩
      have hm := (key a).1 ⟨ha, hty⟩
      unfold volumeAlerts at hm
      split at hm
      · assumption
      · simp at hm
    · intro h
      have hne : volumeAlerts s ≠ [] := by simp [volumeAlerts, h]
      obtain ⟨a, ha⟩ := List.exists_mem_of_ne_nil _ hne
      exact ⟨a, ((key a).2 ha).1, ((key a).2 ha).2⟩
  refine ⟨hiff, ?_, ?_, ?_, ?_⟩
  · intro h
    rw [filter_volume]
    simp [volumeAlerts, h]
  · intro a ha hty
    have hm := (key a).1 ⟨ha, hty⟩
    unfold volumeAlerts at hm
    split at hm
    · simp at hm; subst hm; rfl
    · simp at hm
  · intro h100 a ha hty
    have := hiff.1 ⟨a, ha, hty⟩
    rw [h100] at this
    simp [gt] at this
  · intro h
    apply hiff.2
    rw [h]
    simp only [gt, decide_eq_true_eq]
    norm_num

/-- C3: the alert list contains a SALES_SPIKE alert if and only if
`oneDaySales > 3 * (thirtyDaySales / 30)`, and every SALES_SPIKE alert has
severity HIGH. -/
theorem sales_spike_rule (s : CollectionStats) :
    ((∃ a ∈ buildAlerts s, a.type = "SALES_SPIKE") ↔
      gt s.oneDaySales (mul (fin 3) (div s.thirtyDaySales (fin 30))) = true) ∧
    (∀ a ∈ buildAlerts s, a.type = "SALES_SPIKE" → a.severity = Severity.HIGH) := by
  have key : ∀ a, (a ∈ buildAlerts s ∧ a.type = "SALES_SPIKE") ↔ a ∈ salesAlerts s := by
    intro a
    rw [← filter_sales s, List.mem_filter]
    simp
  rw [jsmul_comm]
  constructor
  · constructor
    · rintro ⟨a, ha, hty⟩
      have hm := (key a).1 ⟨ha, hty⟩
      unfold salesAlerts at hm
      split at hm
      · assumption
      · simp at hm
    · intro h
      have hne : salesAlerts s ≠ [] := by simp [salesAlerts, avgDailySales, h]
      obtain ⟨a, ha⟩ := List.exists_mem_of_ne_nil _ hne
      exact ⟨a, ((key a).2 ha).1, ((key a).2 ha).2⟩
  · intro a ha hty
    have hm := (key a).1 ⟨ha, hty⟩
    unfold salesAlerts at hm
    split at hm
    · simp at hm; subst hm; rfl
    · simp at hm

/-- C4, as the code has it: the alert list contains a MARKET_CAP_SHIFT alert if
and only if `|d| > 100`, where `d` is the difference
`floorPrice * totalSupply - oneDayAveragePrice * totalSupply` as the code
computes it, each product and the difference rounded to the nearest double,
an overflow giving an infinity; such an alert has severity HIGH when `|d|` is
above 500 and MEDIUM otherwise. -/
theorem market_cap_rule (s : CollectionStats) :
    ((∃ a ∈ buildAlerts s, a.type = "MARKET_CAP_SHIFT") ↔
      gt (JSNum.abs (sub (mul s.floorPrice s.totalSupply) (mul s.oneDayAveragePrice s.totalSupply)))
        (fin 100) = true) ∧
    (∀ a ∈ buildAlerts s, a.type = "MARKET_CAP_SHIFT" →
      a.severity =
        if gt (JSNum.abs (sub (mul s.floorPrice s.totalSupply)
            (mul s.oneDayAveragePrice s.totalSupply))) (fin 500) = true
        then Severity.HIGH else Severity.MEDIUM) := by
  have key : ∀ a, (a ∈ buildAlerts s ∧ a.type = "MARKET_CAP_SHIFT") ↔
      a ∈ marketCapAlerts s := by
    intro a
    rw [← filter_marketCap s, List.mem_filter]
    simp
  constructor
  · constructor
    · rintro ⟨a, ha, hty⟩
      have hm := (key a).1 ⟨ha, hty⟩
      unfold marketCapAlerts at hm
      split at hm
      · assumption
      · simp at hm
    · intro h
      have hne : marketCapAlerts s ≠ [] := by simp [marketCapAlerts, marketCapChange, h]
      obtain ⟨a, ha⟩ := List.exists_mem_of_ne_nil _ hne
      exact ⟨a, ((key a).2 ha).1, ((key a).2 ha).2⟩
  · intro a ha hty
    have hm := (key a).1 ⟨ha, hty⟩
    unfold marketCapAlerts at hm
    split at hm
    · simp at hm; subst hm; rfl
    · simp at hm

/-- C4 fails as stated, because the code compares the rounded difference of the
rounded products.  A floor of 2.13 on an average price of 1.13 with a supply
of 100: the stored prices differ by exactly 1, so that
`|floorPrice * totalSupply - oneDayAveragePrice * totalSupply|` is exactly 100,
which is not above 100, and there is a MARKET_CAP_SHIFT alert (the code
computes 100.00000000000001).  A floor of `2^1023` on an average price of
`2^1022` with a supply of 4: the difference is `2^1024`, above 500, and there
is no MARKET_CAP_SHIFT alert (both products are `Infinity`, their difference
is `NaN`). -/
theorem market_cap_rule_counterexample :
    (capEdgeStats.floorPrice = fin (2398166801574789 / 1125899906842624) ∧
      capEdgeStats.oneDayAveragePrice = fin (1272266894732165 / 1125899906842624) ∧
      capEdgeStats.totalSupply = fin 100 ∧
      |(2398166801574789 / 1125899906842624 : ℚ) * 100
        - 1272266894732165 / 1125899906842624 * 100| = 100 ∧
      toStr (marketCapChange capEdgeStats) = "100.00000000000001" ∧
      ∃ a ∈ buildAlerts capEdgeStats, a.type = "MARKET_CAP_SHIFT") ∧
    (capOverflowStats.floorPrice = fin (2 ^ 1023) ∧
      capOverflowStats.oneDayAveragePrice = fin (2 ^ 1022) ∧
      capOverflowStats.totalSupply = fin 4 ∧
      (500 : ℚ) < |2 ^ 1023 * 4 - 2 ^ 1022 * 4| ∧
      marketCapChange capOverflowStats = nan ∧
      ∀ a ∈ buildAlerts capOverflowStats, a.type ≠ "MARKET_CAP_SHIFT") := by
  refine ⟨⟨by decide!, by decide!, rfl, by decide!, by decide!, by decide!⟩,
    ⟨rfl, rfl, rfl, by decide!, by decide!, by decide!⟩⟩

end OpenSeaMonitor

namespace OpenSeaMonitor

open JSNum

/-- The floor rule fires exactly when the alert list has a floor alert. -/
theorem mem_floorAlerts_iff (s : CollectionStats) (a : Alert) :
    (a ∈ buildAlerts s ∧ (a.type = "FLOOR_PUMP" ∨ a.type = "FLOOR_DUMP")) ↔
      a ∈ floorAlerts s := by
  rw [← filter_floor s, List.mem_filter]
  simp

/-- C2, as the code has it: for stats with `oneDayAveragePrice > 0`, the alert
list contains a floor alert (FLOOR_PUMP or FLOOR_DUMP) if and only if
`|p| > 20`, where `p` is the percentage
`((floorPrice - oneDayAveragePrice) / oneDayAveragePrice) * 100` as the code
computes it, each of the three operations rounded to the nearest double; a
floor alert is FLOOR_PUMP exactly when `floorPrice > oneDayAveragePrice` and
FLOOR_DUMP exactly when `floorPrice < oneDayAveragePrice`, and its severity is
HIGH when `|p| > 40` and MEDIUM otherwise. -/
theorem floor_rule (s : CollectionStats) (hA : gt s.oneDayAveragePrice (fin 0) = true) :
    ((∃ a ∈ buildAlerts s, a.type = "FLOOR_PUMP" ∨ a.type = "FLOOR_DUMP") ↔
      gt (JSNum.abs (mul (div (sub s.floorPrice s.oneDayAveragePrice) s.oneDayAveragePrice)
        (fin 100))) (fin 20) = true) ∧
    (∀ a ∈ buildAlerts s, a.type = "FLOOR_PUMP" ∨ a.type = "FLOOR_DUMP" →
      (a.type = "FLOOR_PUMP" ↔ gt s.floorPrice s.oneDayAveragePrice = true) ∧
      (a.type = "FLOOR_DUMP" ↔ gt s.oneDayAveragePrice s.floorPrice = true) ∧
      a.severity =
        if gt (JSNum.abs (mul (div (sub s.floorPrice s.oneDayAveragePrice)
            s.oneDayAveragePrice) (fin 100))) (fin 40) = true
        then Severity.HIGH else Severity.MEDIUM) := by
  constructor
  · constructor
    · rintro ⟨a, ha, hty⟩
      have hm := (mem_floorAlerts_iff s a).1 ⟨ha, hty⟩
      unfold floorAlerts priceChange at hm
      split at hm
      · assumption
      · simp at hm
    · intro h
      have hne : floorAlerts s ≠ [] := by
        unfold floorAlerts priceChange
        rw [if_pos h]
        simp
      obtain ⟨a, ha⟩ := List.exists_mem_of_ne_nil _ hne
      exact ⟨a, ((mem_floorAlerts_iff s a).2 ha).1, ((mem_floorAlerts_iff s a).2 ha).2⟩
  · intro a ha hty
    have hm := (mem_floorAlerts_iff s a).1 ⟨ha, hty⟩
    unfold floorAlerts at hm
    split at hm
    · rename_i h20
      simp only [List.mem_singleton] at hm
      subst hm
      simp only [priceChange] at h20 ⊢
      have hup : gt (mul (div (sub s.floorPrice s.oneDayAveragePrice) s.oneDayAveragePrice)
          (fin 100)) (fin 0) = true ↔ gt s.floorPrice s.oneDayAveragePrice = true := by
        constructor
        · intro hp
          by_contra hF
          have hF' : gt s.floorPrice s.oneDayAveragePrice = false := by simpa using hF
          by_cases hD : gt s.oneDayAveragePrice s.floorPrice = true
          · rw [percent_nonpos _ _ hA hD] at hp
            exact absurd hp (by decide)
          · have hD' : gt s.oneDayAveragePrice s.floorPrice = false := by simpa using hD
            rw [percent_small _ _ hA hF' hD'] at h20
            exact absurd h20 (by decide)
        · intro hF
          rcases gt_zero_or_of_abs _ h20 with hp | hn
          · exact hp
          · rw [percent_nonneg _ _ hA hF] at hn
            exact absurd hn (by decide)
      have hdown : gt (mul (div (sub s.floorPrice s.oneDayAveragePrice) s.oneDayAveragePrice)
          (fin 100)) (fin 0) = false ↔ gt s.oneDayAveragePrice s.floorPrice = true := by
        constructor
        · intro hp
          by_contra hD
          have hD' : gt s.oneDayAveragePrice s.floorPrice = false := by simpa using hD
          by_cases hF : gt s.floorPrice s.oneDayAveragePrice = true
          · rw [hup.2 hF] at hp
            exact absurd hp (by decide)
          · have hF' : gt s.floorPrice s.oneDayAveragePrice = false := by simpa using hF
            rw [percent_small _ _ hA hF' hD'] at h20
            exact absurd h20 (by decide)
        · intro hD
          exact percent_nonpos _ _ hA hD
      refine ⟨?_, ?_, trivial⟩
      · rw [← hup]
        by_cases hp : gt (mul (div (sub s.floorPrice s.oneDayAveragePrice)
            s.oneDayAveragePrice) (fin 100)) (fin 0) = true
        · simp [hp]
        · simp [hp]
      · rw [← hdown]
        by_cases hp : gt (mul (div (sub s.floorPrice s.oneDayAveragePrice)
            s.oneDayAveragePrice) (fin 100)) (fin 0) = true
        · simp [hp]
        · simp [hp]
    · simp at hm

/-- Witness for C2: a floor of 3 on an average price of 2 is a change of 50%. -/
theorem floor_rule_witness :
    gt pumpStats.oneDayAveragePrice (fin 0) = true ∧
    ((∃ a ∈ buildAlerts pumpStats, a.type = "FLOOR_PUMP" ∨ a.type = "FLOOR_DUMP") ↔
      gt (JSNum.abs (mul (div (sub pumpStats.floorPrice pumpStats.oneDayAveragePrice)
        pumpStats.oneDayAveragePrice) (fin 100))) (fin 20) = true) :=
  ⟨by decide!, (floor_rule pumpStats (by decide!)).1⟩

/-- C2 fails as stated, because the code compares the rounded percentage and
not the relative delta.  A floor of 6.8 on an average price of 8.5: the stored
floor is the double nearest to 6.8, the relative delta of the stored values is
above 0.20, and there is no floor alert (the code computes exactly -20).  A
floor of 0.6 on an average price of 1: the relative delta of the stored values
is above 0.40, and the FLOOR_DUMP alert has severity MEDIUM (the code computes
exactly -40).  A floor of 3.6 on an average price of 3, a relative delta of
exactly 0.20 in decimals: there is a FLOOR_PUMP alert (the code computes
20.000000000000004). -/
theorem floor_rule_counterexample :
    (nearTwentyStats.floorPrice = fin (7656119366529843 / 1125899906842624) ∧
      nearTwentyStats.oneDayAveragePrice = fin (17 / 2) ∧
      (1 / 5 : ℚ) < |7656119366529843 / 1125899906842624 - 17 / 2| / (17 / 2) ∧
      ∀ a ∈ buildAlerts nearTwentyStats, ¬ (a.type = "FLOOR_PUMP" ∨ a.type = "FLOOR_DUMP")) ∧
    (nearFortyStats.floorPrice = fin (5404319552844595 / 9007199254740992) ∧
      nearFortyStats.oneDayAveragePrice = fin 1 ∧
      (2 / 5 : ℚ) < |5404319552844595 / 9007199254740992 - 1| / 1 ∧
      ∃ a ∈ buildAlerts nearFortyStats,
        a.type = "FLOOR_DUMP" ∧ a.severity = Severity.MEDIUM) ∧
    (decimalTwentyStats.floorPrice = lit (18 / 5) ∧
      decimalTwentyStats.oneDayAveragePrice = fin 3 ∧
      |(18 / 5 : ℚ) - 3| / 3 = 1 / 5 ∧
      toStr (priceChange decimalTwentyStats) = "20.000000000000004" ∧
      ∃ a ∈ buildAlerts decimalTwentyStats, a.type = "FLOOR_PUMP") := by
  refine ⟨⟨by decide!, rfl, by decide!, by decide!⟩, ⟨by decide!, rfl, by decide!, by decide!⟩,
    ⟨rfl, rfl, by decide!, by decide!, by decide!⟩⟩

end OpenSeaMonitor

/-! ## The risk score -/

namespace OpenSeaMonitor

/-- The sum that the `forEach` of `calculateRiskScore` builds, from any start. -/
theorem foldl_weights (alerts : List Alert) (n : Nat) :
    alerts.foldl (fun score alert => score + weights alert.severity) n
      = n + (40 * alerts.countP (fun a => decide (a.severity = Severity.HIGH))
          + 20 * alerts.countP (fun a => decide (a.severity = Severity.MEDIUM))
          + 10 * alerts.countP (fun a => decide (a.severity = Severity.LOW))) := by
  induction alerts generalizing n with
  | nil => simp
  | cons a rest ih =>
    rw [List.foldl_cons, ih]
    cases hs : a.severity <;> simp [List.countP_cons, hs, weights] <;> omega

/-- C5: `calculateRiskScore` returns the minimum of 100 and
`40 * (number of HIGH alerts) + 20 * (number of MEDIUM alerts) +
10 * (number of LOW alerts)`; the result is at most 100 whatever the length of
the list, and ten HIGH alerts score 100, not 400. -/
theorem calculateRiskScore_eq (alerts : List Alert) :
    calculateRiskScore alerts
      = min 100 (40 * alerts.countP (fun a => decide (a.severity = Severity.HIGH))
          + 20 * alerts.countP (fun a => decide (a.severity = Severity.MEDIUM))
          + 10 * alerts.countP (fun a => decide (a.severity = Severity.LOW))) ∧
    calculateRiskScore alerts ≤ 100 ∧
    calculateRiskScore (List.replicate 10 (alertOf "VOLUME_SURGE" Severity.HIGH)) = 100 := by
  refine ⟨?_, ?_, ?_⟩
  · unfold calculateRiskScore
    rw [foldl_weights, Nat.zero_add, Nat.min_comm]
  · unfold calculateRiskScore
    exact Nat.min_le_right _ _
  · decide

/-- C6: the risk score does not decrease when a HIGH alert is added to the
list, wherever it is added. -/
theorem calculateRiskScore_mono (before after : List Alert) (a : Alert)
    (ha : a.severity = Severity.HIGH) :
    calculateRiskScore (before ++ after) ≤ calculateRiskScore (before ++ a :: after) := by
  unfold calculateRiskScore
  rw [foldl_weights, foldl_weights]
  simp only [List.countP_append, List.countP_cons, ha]
  simp only [Nat.zero_add, decide_True, if_true, decide_False, if_false, reduceCtorEq]
  apply min_le_min _ (le_refl 100)
  omega

/-- Witness for C6: a HIGH alert added between two MEDIUM alerts. -/
theorem calculateRiskScore_mono_witness :
    (alertOf "SALES_SPIKE" Severity.HIGH).severity = Severity.HIGH ∧
    calculateRiskScore ([alertOf "VOLUME_SURGE" Severity.MEDIUM]
        ++ [alertOf "FLOOR_DUMP" Severity.MEDIUM])
      ≤ calculateRiskScore ([alertOf "VOLUME_SURGE" Severity.MEDIUM]
        ++ alertOf "SALES_SPIKE" Severity.HIGH :: [alertOf "FLOOR_DUMP" Severity.MEDIUM]) :=
  ⟨rfl, calculateRiskScore_mono _ _ _ rfl⟩

end OpenSeaMonitor

/-! ## The recommendation -/

namespace OpenSeaMonitor

/-- `find` yields an alert exactly when the list has one of the type. -/
theorem find_type_isSome (alerts : List Alert) (t : String) :
    (alerts.find? (fun a => decide (a.type = t))).isSome = true ↔ ∃ a ∈ alerts, a.type = t := by
  rw [List.find?_isSome]
  simp

/-- The four branches of `generateRecommendation` on a non-empty list, with
`find` read as the presence of an alert of the type. -/
theorem generateRecommendation_cases (stats : CollectionStats) (alerts : List Alert)
    (hne : alerts ≠ []) :
    generateRecommendation stats alerts =
      if 2 ≤ (alerts.filter (fun a => decide (a.severity = Severity.HIGH))).length ∧
          ((∃ a ∈ alerts, a.type = "VOLUME_SURGE") ∨ (∃ a ∈ alerts, a.type = "FLOOR_PUMP")) then
        { action := "BUY", reasoning := "Multiple strong bullish signals detected",
          confidence := "HIGH" }
      else if (∃ a ∈ alerts, a.type = "SALES_SPIKE") ∧ (∃ a ∈ alerts, a.type = "FLOOR_PUMP") then
        { action := "BUY", reasoning := "Organic demand driving price and sales",
          confidence := "MEDIUM" }
      else if ∃ a ∈ alerts, a.type = "FLOOR_DUMP" then
        { action := "WAIT", reasoning := "Price declining, wait for stabilization",
          confidence := "MEDIUM" }
      else
        { action := "WATCH", reasoning := "Activity detected, monitor for confirmation",
          confidence := "LOW" } := by
  have hlen : ¬ alerts.length = 0 := by
    intro h; exact hne (List.length_eq_zero.1 h)
  unfold generateRecommendation
  rw [if_neg hlen]
  simp only [find_type_isSome]

/-- C7: on a non-empty alert list `generateRecommendation` returns BUY if and
only if (the list has at least two HIGH alerts and contains a VOLUME_SURGE or a
FLOOR_PUMP) or (it contains both a SALES_SPIKE and a FLOOR_PUMP); the
confidence is HIGH when the first condition holds and MEDIUM when only the
second does. -/
theorem generateRecommendation_buy (stats : CollectionStats) (alerts : List Alert)
    (hne : alerts ≠ []) :
    ((generateRecommendation stats alerts).action = "BUY" ↔
      (2 ≤ (alerts.filter (fun a => decide (a.severity = Severity.HIGH))).length ∧
        ((∃ a ∈ alerts, a.type = "VOLUME_SURGE") ∨ (∃ a ∈ alerts, a.type = "FLOOR_PUMP"))) ∨
      ((∃ a ∈ alerts, a.type = "SALES_SPIKE") ∧ (∃ a ∈ alerts, a.type = "FLOOR_PUMP"))) ∧
    ((2 ≤ (alerts.filter (fun a => decide (a.severity = Severity.HIGH))).length ∧
        ((∃ a ∈ alerts, a.type = "VOLUME_SURGE") ∨ (∃ a ∈ alerts, a.type = "FLOOR_PUMP"))) →
      (generateRecommendation stats alerts).confidence = "HIGH") ∧
    (¬ (2 ≤ (alerts.filter (fun a => decide (a.severity = Severity.HIGH))).length ∧
        ((∃ a ∈ alerts, a.type = "VOLUME_SURGE") ∨ (∃ a ∈ alerts, a.type = "FLOOR_PUMP"))) →
      ((∃ a ∈ alerts, a.type = "SALES_SPIKE") ∧ (∃ a ∈ alerts, a.type = "FLOOR_PUMP")) →
      (generateRecommendation stats alerts).confidence = "MEDIUM") := by
  rw [generateRecommendation_cases stats alerts hne]
  by_cases h1 : 2 ≤ (alerts.filter (fun a => decide (a.severity = Severity.HIGH))).length ∧
      ((∃ a ∈ alerts, a.type = "VOLUME_SURGE") ∨ (∃ a ∈ alerts, a.type = "FLOOR_PUMP"))
  · rw [if_pos h1]
    exact ⟨⟨fun _ => Or.inl h1, fun _ => rfl⟩, fun _ => rfl, fun h => absurd h1 h⟩
  · rw [if_neg h1]
    by_cases h2 : (∃ a ∈ alerts, a.type = "SALES_SPIKE") ∧ (∃ a ∈ alerts, a.type = "FLOOR_PUMP")
    · rw [if_pos h2]
      exact ⟨⟨fun _ => Or.inr h2, fun _ => rfl⟩, fun h => absurd h h1, fun _ _ => rfl⟩
    · rw [if_neg h2]
      refine ⟨⟨?_, ?_⟩, fun h => absurd h h1, fun _ h => absurd h h2⟩
      · intro h
        by_cases h3 : ∃ a ∈ alerts, a.type = "FLOOR_DUMP"
        · rw [if_pos h3] at h; exact absurd h (by decide)
        · rw [if_neg h3] at h; exact absurd h (by decide)
      · rintro (h | h)
        · exact absurd h h1
        · exact absurd h h2

/-- Witness for C7: two HIGH alerts, one of them a VOLUME_SURGE. -/
theorem generateRecommendation_buy_witness :
    [alertOf "VOLUME_SURGE" Severity.HIGH, alertOf "SALES_SPIKE" Severity.HIGH] ≠ [] ∧
    (generateRecommendation quietStats
      [alertOf "VOLUME_SURGE" Severity.HIGH, alertOf "SALES_SPIKE" Severity.HIGH]).confidence
      = "HIGH" :=
  ⟨by simp, (generateRecommendation_buy quietStats
      [alertOf "VOLUME_SURGE" Severity.HIGH, alertOf "SALES_SPIKE" Severity.HIGH]
      (by simp)).2.1 ⟨by decide, Or.inl ⟨_, List.mem_cons_self _ _, rfl⟩⟩⟩

/-- C8: on a non-empty alert list to which neither BUY rule applies,
`generateRecommendation` returns WAIT with MEDIUM confidence when the list
contains a FLOOR_DUMP alert, and WATCH with LOW confidence otherwise. -/
theorem generateRecommendation_wait_watch (stats : CollectionStats) (alerts : List Alert)
    (hne : alerts ≠ [])
    (h1 : ¬ (2 ≤ (alerts.filter (fun a => decide (a.severity = Severity.HIGH))).length ∧
      ((∃ a ∈ alerts, a.type = "VOLUME_SURGE") ∨ (∃ a ∈ alerts, a.type = "FLOOR_PUMP"))))
    (h2 : ¬ ((∃ a ∈ alerts, a.type = "SALES_SPIKE") ∧ (∃ a ∈ alerts, a.type = "FLOOR_PUMP"))) :
    ((∃ a ∈ alerts, a.type = "FLOOR_DUMP") →
      (generateRecommendation stats alerts).action = "WAIT" ∧
      (generateRecommendation stats alerts).confidence = "MEDIUM") ∧
    ((¬ ∃ a ∈ alerts, a.type = "FLOOR_DUMP") →
      (generateRecommendation stats alerts).action = "WATCH" ∧
      (generateRecommendation stats alerts).confidence = "LOW") := by
  rw [generateRecommendation_cases stats alerts hne, if_neg h1, if_neg h2]
  constructor
  · intro h3
    rw [if_pos h3]
    exact ⟨rfl, rfl⟩
  · intro h3
    rw [if_neg h3]
    exact ⟨rfl, rfl⟩

/-- Witness for C8: a single FLOOR_DUMP alert gives WAIT with MEDIUM
confidence. -/
theorem generateRecommendation_wait_watch_witness :
    [alertOf "FLOOR_DUMP" Severity.HIGH] ≠ [] ∧
    (generateRecommendation quietStats [alertOf "FLOOR_DUMP" Severity.HIGH]).action = "WAIT" ∧
    (generateRecommendation quietStats [alertOf "FLOOR_DUMP" Severity.HIGH]).confidence
      = "MEDIUM" :=
  ⟨by simp, (generateRecommendation_wait_watch quietStats [alertOf "FLOOR_DUMP" Severity.HIGH]
      (by simp) (by decide) (by decide)).1 ⟨_, List.mem_cons_self _ _, rfl⟩⟩

/-- C9: on the empty alert list `generateRecommendation` returns HOLD with LOW
confidence, whatever the stats. -/
theorem generateRecommendation_nil (stats : CollectionStats) :
    (generateRecommendation stats []).action = "HOLD" ∧
    (generateRecommendation stats []).confidence = "LOW" :=
  ⟨rfl, rfl⟩

end OpenSeaMonitor

/-! ## The scan cycle and the watch list -/

namespace OpenSeaMonitor

open JSNum

/-- The detector only gives the severities HIGH and MEDIUM. -/
theorem severity_of_mem_buildAlerts {s : CollectionStats} {a : Alert}
    (h : a ∈ buildAlerts s) : a.severity = Severity.HIGH ∨ a.severity = Severity.MEDIUM := by
  simp only [buildAlerts, List.mem_append] at h
  rcases h with ((h | h) | h) | h
  · unfold volumeAlerts at h
    split at h
    · simp only [List.mem_singleton] at h; subst h
      by_cases hc : gt s.oneDayChange (fin 300) = true <;> simp [hc]
    · simp at h
  · unfold salesAlerts at h
    split at h
    · simp only [List.mem_singleton] at h; subst h; exact Or.inl rfl
    · simp at h
  · unfold floorAlerts at h
    split at h
    · simp only [List.mem_singleton] at h; subst h
      by_cases hc : gt (JSNum.abs (priceChange s)) (fin 40) = true <;> simp [hc]
    · simp at h
  · unfold marketCapAlerts at h
    split at h
    · simp only [List.mem_singleton] at h; subst h
      by_cases hc : gt (JSNum.abs (marketCapChange s)) (fin 500) = true <;> simp [hc]
    · simp at h

/-- Stats whose alerts are neither HIGH nor MEDIUM have no alert at all. -/
theorem buildAlerts_eq_nil_of_quiet {s : CollectionStats}
    (h : ∀ a ∈ buildAlerts s, a.severity ≠ Severity.HIGH ∧ a.severity ≠ Severity.MEDIUM) :
    buildAlerts s = [] := by
  apply List.eq_nil_iff_forall_not_mem.2
  intro a ha
  rcases severity_of_mem_buildAlerts ha with h1 | h1
  · exact (h a ha).1 h1
  · exact (h a ha).2 h1

/-- A result of `scanTopCollections` is the analysis of one of the first 20
listed collections whose stats were fetched, and it has an alert. -/
theorem mem_scanTopCollections {listing : Option (List (String × Option CollectionStats))}
    {now : String} {r : ScanResult} (h : r ∈ scanTopCollections listing now) :
    ∃ collections, listing = some collections ∧
      ∃ c ∈ collections.take 20, ∃ stats, c.2 = some stats ∧
        r.collection = c.1 ∧ r.alerts = buildAlerts stats ∧ r.alerts ≠ [] := by
  unfold scanTopCollections at h
  cases listing with
  | none => simp at h
  | some collections =>
    refine ⟨collections, rfl, ?_⟩
    simp only [List.mem_mergeSort, List.mem_filterMap] at h
    obtain ⟨c, hc, hr⟩ := h
    refine ⟨c, hc, ?_⟩
    cases hst : c.2 with
    | none => simp [detectUnusualActivity, hst] at hr
    | some stats =>
      simp only [detectUnusualActivity, hst] at hr
      split at hr
      · rename_i hlen
        simp only [Option.some.injEq] at hr
        subst hr
        refine ⟨stats, rfl, rfl, rfl, ?_⟩
        intro hnil
        have hnil2 : buildAlerts stats = [] := hnil
        simp [hnil2] at hlen
      · simp at hr

end OpenSeaMonitor

namespace ContinuousMonitor

/-- One call of the `forEach` callback keeps the watch list or appends one
entry for the collection at hand. -/
theorem mem_processCollection {now : String} {st : ScanLoop} {index : Nat} {r : ScanResult}
    {e : WatchListEntry} (h : e ∈ (processCollection now st index r).highPriorityAlerts) :
    e ∈ st.highPriorityAlerts ∨ e.collection = r.collection := by
  unfold processCollection at h
  by_cases hp : isHighPriority r = true
  · by_cases hex : (st.highPriorityAlerts.find?
        (fun a => decide (a.collection = r.collection))).isSome = true
    · by_cases hi : index < 5 <;> simp [hp, hex, hi] at h <;> exact Or.inl h
    · by_cases hi : index < 5 <;> simp [hp, hex, hi] at h <;>
        rcases h with h | h
      · exact Or.inl h
      · subst h; exact Or.inr rfl
      · exact Or.inl h
      · subst h; exact Or.inr rfl
  · by_cases hi : index < 5 <;> simp [hp, hi] at h <;> exact Or.inl h

/-- An entry of the watch list after the `forEach` was there before or bears
the collection of one of the results. -/
theorem mem_forEachFrom {now : String} {e : WatchListEntry} (l : List ScanResult) :
    ∀ (index : Nat) (st : ScanLoop), e ∈ (forEachFrom now index l st).highPriorityAlerts →
      e ∈ st.highPriorityAlerts ∨ ∃ r ∈ l, e.collection = r.collection := by
  induction l with
  | nil => intro index st h; exact Or.inl h
  | cons r rest ih =>
    intro index st h
    rw [forEachFrom] at h
    rcases ih _ _ h with h1 | ⟨r', hr', he⟩
    · rcases mem_processCollection h1 with h2 | h2
      · exact Or.inl h2
      · exact Or.inr ⟨r, List.mem_cons_self _ _, h2⟩
    · exact Or.inr ⟨r', List.mem_cons_of_mem _ hr', he⟩

/-- An entry of the watch list after the update of a scan was there before or
bears the collection of one of the scan results. -/
theorem mem_scanUpdate {m : ContinuousMonitor} {unusual : List ScanResult} {now : String}
    {e : WatchListEntry} (h : e ∈ (scanUpdate m unusual now).highPriorityAlerts) :
    e ∈ m.highPriorityAlerts ∨ ∃ r ∈ unusual, e.collection = r.collection := by
  unfold scanUpdate at h
  split at h
  · exact Or.inl h
  · exact mem_forEachFrom unusual 0 _ h

end ContinuousMonitor

namespace ContinuousMonitor

open JSNum OpenSeaMonitor

/-- The collection at rest raises no alert. -/
theorem buildAlerts_quietStats : buildAlerts quietStats = [] := by
  decide!

/-- C10: when every analysis of a collection in a scan (the stats fetched for
it among the first 20 listed) has an alert list with no HIGH and no MEDIUM
alert, `generateRecommendation` returns HOLD with LOW confidence for each of
them, and `runScan` does not add the collection to the watch list: an entry of
`highPriorityAlerts` for it after the scan was there before. -/
theorem quiet_collection_not_watched (m : ContinuousMonitor) (env : ScanEnv) (slug : String)
    (hquiet : ∀ collections, env.listing = some collections →
      ∀ c ∈ collections.take 20, c.1 = slug → ∀ stats, c.2 = some stats →
        ∀ a ∈ buildAlerts stats, a.severity ≠ Severity.HIGH ∧ a.severity ≠ Severity.MEDIUM) :
    (∀ collections, env.listing = some collections →
      ∀ c ∈ collections.take 20, c.1 = slug → ∀ stats, c.2 = some stats →
        (generateRecommendation stats (buildAlerts stats)).action = "HOLD" ∧
        (generateRecommendation stats (buildAlerts stats)).confidence = "LOW") ∧
    (∀ e ∈ (runScan m env).monitor.highPriorityAlerts, e.collection = slug →
      e ∈ m.highPriorityAlerts) := by
  constructor
  · intro collections hl c hc hslug stats hst
    rw [buildAlerts_eq_nil_of_quiet (hquiet collections hl c hc hslug stats hst)]
    exact ⟨rfl, rfl⟩
  · intro e he hslug
    have he2 : e ∈ (scanUpdate m (scanTopCollections env.listing env.now)
        env.now).highPriorityAlerts := he
    rcases mem_scanUpdate he2 with h | ⟨r, hr, hcol⟩
    · exact h
    · obtain ⟨collections, hl, c, hc, stats, hst, hrc, hra, hne⟩ := mem_scanTopCollections hr
      have hcs : c.1 = slug := by rw [← hrc, ← hcol, hslug]
      have hnil := buildAlerts_eq_nil_of_quiet (hquiet collections hl c hc hcs stats hst)
      rw [hra, hnil] at hne
      exact absurd rfl hne

/-- Witness for C10: a scan that lists one collection at rest. -/
theorem quiet_collection_not_watched_witness :
    (∀ collections, quietEnv.listing = some collections →
      ∀ c ∈ collections.take 20, c.1 = "quiet" → ∀ stats, c.2 = some stats →
        ∀ a ∈ buildAlerts stats, a.severity ≠ Severity.HIGH ∧ a.severity ≠ Severity.MEDIUM) ∧
    (∀ e ∈ (runScan ContinuousMonitor.new quietEnv).monitor.highPriorityAlerts,
      e.collection = "quiet" → e ∈ ContinuousMonitor.new.highPriorityAlerts) :=
  have hq : ∀ collections, quietEnv.listing = some collections →
      ∀ c ∈ collections.take 20, c.1 = "quiet" → ∀ stats, c.2 = some stats →
        ∀ a ∈ buildAlerts stats,
          a.severity ≠ Severity.HIGH ∧ a.severity ≠ Severity.MEDIUM := by
    intro collections hl c hc _ stats hst a ha
    simp only [quietEnv, Option.some.injEq] at hl
    subst hl
    simp only [List.take, List.mem_singleton] at hc
    subst hc
    simp only [Option.some.injEq] at hst
    subst hst
    rw [buildAlerts_quietStats] at ha
    simp at ha
  ⟨hq, (quiet_collection_not_watched ContinuousMonitor.new quietEnv "quiet" hq).2⟩

end ContinuousMonitor


/-! ## The watch list across a scan -/

namespace ContinuousMonitor

open OpenSeaMonitor

/-- The watch list after one call of the `forEach` callback: one entry is
appended when the result is high priority and its collection has no entry yet,
and nothing changes otherwise. -/
theorem processCollection_watch (now : String) (st : ScanLoop) (index : Nat) (r : ScanResult) :
    (processCollection now st index r).highPriorityAlerts =
      if isHighPriority r = true ∧ (∀ e ∈ st.highPriorityAlerts, e.collection ≠ r.collection)
      then st.highPriorityAlerts ++
        [{ collection := r.collection, firstSeen := now, riskScore := r.riskScore,
           recommendation := r.recommendation }]
      else st.highPriorityAlerts := by
  by_cases hp : isHighPriority r = true
  · by_cases hex : ∀ e ∈ st.highPriorityAlerts, e.collection ≠ r.collection
    · have hnone : st.highPriorityAlerts.find?
          (fun a => decide (a.collection = r.collection)) = none := by
        rw [List.find?_eq_none]; simpa using hex
      rw [if_pos ⟨hp, hex⟩]
      by_cases hi : index < 5 <;> simp [processCollection, hp, hi, hnone]
    · have hsome : (st.highPriorityAlerts.find?
          (fun a => decide (a.collection = r.collection))).isSome = true := by
        rw [List.find?_isSome]; simpa using hex
      rw [if_neg (fun h => hex h.2)]
      by_cases hi : index < 5 <;> simp [processCollection, hp, hi, hsome]
  · rw [if_neg (fun h => hp h.1)]
    by_cases hi : index < 5 <;> simp [processCollection, hp, hi]

/-- The test `isHighPriority` in the words of the spec. -/
theorem isHighPriority_iff (r : ScanResult) :
    isHighPriority r = true ↔ 60 ≤ r.riskScore ∨ r.recommendation.action = "BUY" := by
  simp [isHighPriority]

/-- One call of the `forEach` callback keeps the watch list as a prefix. -/
theorem prefix_processCollection (now : String) (st : ScanLoop) (index : Nat) (r : ScanResult) :
    st.highPriorityAlerts <+: (processCollection now st index r).highPriorityAlerts := by
  rw [processCollection_watch]
  split
  · exact List.prefix_append _ _
  · exact List.prefix_refl _

/-- The `forEach` keeps the watch list as a prefix. -/
theorem prefix_forEachFrom (now : String) (l : List ScanResult) :
    ∀ (index : Nat) (st : ScanLoop),
      st.highPriorityAlerts <+: (forEachFrom now index l st).highPriorityAlerts := by
  induction l with
  | nil => intro index st; exact List.prefix_refl _
  | cons r rest ih =>
    intro index st
    rw [forEachFrom]
    exact (prefix_processCollection now st index r).trans (ih _ _)

/-- After the `forEach`, every high-priority result has an entry. -/
theorem watched_forEachFrom (now : String) (l : List ScanResult) :
    ∀ (index : Nat) (st : ScanLoop), ∀ r ∈ l, isHighPriority r = true →
      ∃ e ∈ (forEachFrom now index l st).highPriorityAlerts, e.collection = r.collection := by
  induction l with
  | nil => intro index st r hr; simp at hr
  | cons r0 rest ih =>
    intro index st r hr hp
    rw [forEachFrom]
    rcases List.mem_cons.1 hr with h | h
    · subst h
      have hmem : ∃ e ∈ (processCollection now st index r).highPriorityAlerts,
          e.collection = r.collection := by
        rw [processCollection_watch]
        by_cases hex : ∀ e ∈ st.highPriorityAlerts, e.collection ≠ r.collection
        · rw [if_pos ⟨hp, hex⟩]
          exact ⟨_, List.mem_append_right _ (List.mem_singleton.2 rfl), rfl⟩
        · rw [if_neg (fun h => hex h.2)]
          simpa using hex
      obtain ⟨e, he, hc⟩ := hmem
      exact ⟨e, (prefix_forEachFrom now rest _ _).subset he, hc⟩
    · exact ih _ _ r h hp

/-- An entry of the watch list after the `forEach` was there before or is the
entry made for a high-priority result. -/
theorem new_forEachFrom (now : String) (l : List ScanResult) :
    ∀ (index : Nat) (st : ScanLoop), ∀ e ∈ (forEachFrom now index l st).highPriorityAlerts,
      e ∈ st.highPriorityAlerts ∨
      ∃ r ∈ l, isHighPriority r = true ∧ e.collection = r.collection := by
  induction l with
  | nil => intro index st e he; exact Or.inl he
  | cons r0 rest ih =>
    intro index st e he
    rw [forEachFrom] at he
    rcases ih _ _ e he with h | ⟨r, hr, hp, hc⟩
    · rw [processCollection_watch] at h
      split at h
      · rename_i hcond
        rcases List.mem_append.1 h with h1 | h1
        · exact Or.inl h1
        · rw [List.mem_singleton] at h1
          subst h1
          exact Or.inr ⟨r0, List.mem_cons_self _ _, hcond.1, rfl⟩
      · exact Or.inl h
    · exact Or.inr ⟨r, List.mem_cons_of_mem _ hr, hp, hc⟩

/-- The entries of a collection that is on the watch list are the same after
the `forEach`. -/
theorem filter_forEachFrom (now slug : String) (l : List ScanResult) :
    ∀ (index : Nat) (st : ScanLoop), (∃ e ∈ st.highPriorityAlerts, e.collection = slug) →
      (forEachFrom now index l st).highPriorityAlerts.filter
          (fun e => decide (e.collection = slug))
        = st.highPriorityAlerts.filter (fun e => decide (e.collection = slug)) := by
  induction l with
  | nil => intro index st _; rfl
  | cons r0 rest ih =>
    intro index st hex
    rw [forEachFrom]
    have hex' : ∃ e ∈ (processCollection now st index r0).highPriorityAlerts,
        e.collection = slug := by
      obtain ⟨e, he, hc⟩ := hex
      exact ⟨e, (prefix_processCollection now st index r0).subset he, hc⟩
    rw [ih _ _ hex', processCollection_watch]
    split
    · rename_i hcond
      have hne : r0.collection ≠ slug := by
        intro heq
        obtain ⟨e, he, hc⟩ := hex
        exact hcond.2 e he (hc.trans heq.symm)
      simp [List.filter_append, hne]
    · rfl

/-- The watch list after the update of a scan. -/
theorem scanUpdate_watch (m : ContinuousMonitor) (unusual : List ScanResult) (now : String) :
    (scanUpdate m unusual now).highPriorityAlerts =
      (forEachFrom now 0 unusual
        { highPriorityAlerts := m.highPriorityAlerts, newHighPriorityCount := 0,
          newAlerts := [] }).highPriorityAlerts := by
  unfold scanUpdate
  split
  · rename_i h
    rw [List.length_eq_zero.1 h]
    rfl
  · rfl

end ContinuousMonitor

namespace ContinuousMonitor

open OpenSeaMonitor

/-- The scan of a single listed collection that raises an alert. -/
theorem scanTopCollections_single (slug now : String) (stats : CollectionStats)
    (h : buildAlerts stats ≠ []) :
    scanTopCollections (some [(slug, some stats)]) now =
      [{ collection := slug, timestamp := now, stats := stats, alerts := buildAlerts stats,
         riskScore := calculateRiskScore (buildAlerts stats),
         recommendation := generateRecommendation stats (buildAlerts stats) }] := by
  have hlen : 0 < (buildAlerts stats).length := List.length_pos.2 h
  simp [scanTopCollections, detectUnusualActivity, hlen]

/-- The hot collection scores 80. -/
theorem riskScore_hotStats : calculateRiskScore (buildAlerts hotStats) = 80 := by
  decide!

/-- The hot collection raises an alert. -/
theorem buildAlerts_hotStats_ne : buildAlerts hotStats ≠ [] := by
  intro h
  have := riskScore_hotStats
  rw [h] at this
  simp [calculateRiskScore] at this

/-- The watch list before a scan is a prefix of the watch list after it. -/
theorem prefix_runScan (m : ContinuousMonitor) (env : ScanEnv) :
    m.highPriorityAlerts <+: (runScan m env).monitor.highPriorityAlerts := by
  show m.highPriorityAlerts <+:
    (scanUpdate m (scanTopCollections env.listing env.now) env.now).highPriorityAlerts
  rw [scanUpdate_watch]
  exact prefix_forEachFrom env.now _ 0
    { highPriorityAlerts := m.highPriorityAlerts, newHighPriorityCount := 0,
        newAlerts := [] }

/-- The entries of a collection that is on the watch list are the same after a
scan. -/
theorem filter_runScan (m : ContinuousMonitor) (env : ScanEnv) (slug : String)
    (h : ∃ e ∈ m.highPriorityAlerts, e.collection = slug) :
    (runScan m env).monitor.highPriorityAlerts.filter (fun e => decide (e.collection = slug))
      = m.highPriorityAlerts.filter (fun e => decide (e.collection = slug)) := by
  show (scanUpdate m (scanTopCollections env.listing env.now)
    env.now).highPriorityAlerts.filter (fun e => decide (e.collection = slug)) = _
  rw [scanUpdate_watch]
  exact filter_forEachFrom env.now slug _ 0
    { highPriorityAlerts := m.highPriorityAlerts, newHighPriorityCount := 0,
        newAlerts := [] } h

/-- C11: in `runScan` a scan result is high priority exactly when
`riskScore >= 60` or its action is BUY: after the scan the collection of every
such result has an entry in `highPriorityAlerts`, and a collection that had no
entry before the scan and has no such result in the scan has none after it. -/
theorem high_priority_watched (m : ContinuousMonitor) (env : ScanEnv) :
    (∀ r ∈ scanTopCollections env.listing env.now,
      (60 ≤ r.riskScore ∨ r.recommendation.action = "BUY") →
      ∃ e ∈ (runScan m env).monitor.highPriorityAlerts, e.collection = r.collection) ∧
    (∀ slug : String, (∀ e ∈ m.highPriorityAlerts, e.collection ≠ slug) →
      (∀ r ∈ scanTopCollections env.listing env.now, r.collection = slug →
        ¬ (60 ≤ r.riskScore ∨ r.recommendation.action = "BUY")) →
      ∀ e ∈ (runScan m env).monitor.highPriorityAlerts, e.collection ≠ slug) := by
  have hrun : (runScan m env).monitor.highPriorityAlerts =
      (forEachFrom env.now 0 (scanTopCollections env.listing env.now)
        { highPriorityAlerts := m.highPriorityAlerts, newHighPriorityCount := 0,
          newAlerts := [] }).highPriorityAlerts :=
    scanUpdate_watch m _ env.now
  constructor
  · intro r hr hq
    rw [hrun]
    exact watched_forEachFrom env.now _ 0
      { highPriorityAlerts := m.highPriorityAlerts, newHighPriorityCount := 0,
        newAlerts := [] } r hr
      ((isHighPriority_iff r).2 hq)
  · intro slug hbefore hnone e he hslug
    rw [hrun] at he
    rcases new_forEachFrom env.now _ 0
      { highPriorityAlerts := m.highPriorityAlerts, newHighPriorityCount := 0,
        newAlerts := [] } e he
      with h | ⟨r, hr, hp, hc⟩
    · exact hbefore e h hslug
    · exact hnone r hr (hc.symm.trans hslug) ((isHighPriority_iff r).1 hp)

/-- C12: a scan removes no watch-list entry and changes no `firstSeen`: the
watch list before `runScan` is a prefix of the watch list after it, so every
entry is still there, with the same collection and the same `firstSeen`,
whatever the scan finds. -/
theorem watch_list_kept (m : ContinuousMonitor) (env : ScanEnv) :
    m.highPriorityAlerts <+: (runScan m env).monitor.highPriorityAlerts ∧
    (∀ e ∈ m.highPriorityAlerts, ∃ e' ∈ (runScan m env).monitor.highPriorityAlerts,
      e'.collection = e.collection ∧ e'.firstSeen = e.firstSeen) :=
  ⟨prefix_runScan m env, fun e he => ⟨e, (prefix_runScan m env).subset he, rfl, rfl⟩⟩

/-- C13, as the code has it: when a collection that is on the watch list
qualifies again, `runScan` leaves its entry as it is (the same `riskScore`,
`recommendation` and `firstSeen`) and adds no entry for it: the entries of the
collection are the same before and after the scan. -/
theorem requalified_entry_kept (m : ContinuousMonitor) (env : ScanEnv) (slug : String)
    (h : ∃ e ∈ m.highPriorityAlerts, e.collection = slug) :
    (runScan m env).monitor.highPriorityAlerts.filter (fun e => decide (e.collection = slug))
      = m.highPriorityAlerts.filter (fun e => decide (e.collection = slug)) :=
  filter_runScan m env slug h

/-- Witness for C13: the collection `hot` is on the watch list and is scanned
again. -/
theorem requalified_entry_kept_witness :
    (∃ e ∈ staleMonitor.highPriorityAlerts, e.collection = "hot") ∧
    (runScan staleMonitor hotEnv).monitor.highPriorityAlerts.filter
        (fun e => decide (e.collection = "hot"))
      = staleMonitor.highPriorityAlerts.filter (fun e => decide (e.collection = "hot")) :=
  ⟨⟨staleEntry, List.mem_singleton.2 rfl, rfl⟩,
   requalified_entry_kept staleMonitor hotEnv "hot"
     ⟨staleEntry, List.mem_singleton.2 rfl, rfl⟩⟩

/-- C13 fails as stated: `hot` is on the watch list with a score of 60 and
qualifies again with a score of 80 and the action BUY; after `runScan` its
entry still has the score 60 and the action WATCH. -/
theorem no_refresh_counterexample :
    (∃ e ∈ staleMonitor.highPriorityAlerts, e.collection = "hot") ∧
    (∃ r ∈ scanTopCollections hotEnv.listing hotEnv.now,
      r.collection = "hot" ∧ 60 ≤ r.riskScore ∧ r.riskScore = 80) ∧
    (∀ e ∈ (runScan staleMonitor hotEnv).monitor.highPriorityAlerts, e.collection = "hot" →
      e.riskScore = 60 ∧ e.recommendation.action = "WATCH") := by
  have hin : ∃ e ∈ staleMonitor.highPriorityAlerts, e.collection = "hot" :=
    ⟨staleEntry, List.mem_singleton.2 rfl, rfl⟩
  refine ⟨hin, ?_, ?_⟩
  · have hscan : scanTopCollections hotEnv.listing hotEnv.now = _ :=
      scanTopCollections_single "hot" hotEnv.now hotStats buildAlerts_hotStats_ne
    rw [hscan]
    refine ⟨_, List.mem_singleton.2 rfl, rfl, ?_, riskScore_hotStats⟩
    show 60 ≤ calculateRiskScore (buildAlerts hotStats)
    rw [riskScore_hotStats]
    decide
  · intro e he hc
    have hmem : e ∈ (runScan staleMonitor hotEnv).monitor.highPriorityAlerts.filter
        (fun e => decide (e.collection = "hot")) :=
      List.mem_filter.2 ⟨he, by simpa using hc⟩
    rw [filter_runScan staleMonitor hotEnv "hot" hin] at hmem
    have he2 : e = staleEntry := by
      have := (List.mem_filter.1 hmem).1
      exact List.mem_singleton.1 this
    subst he2
    exact ⟨rfl, rfl⟩

end ContinuousMonitor

/-! ## The history across scans -/

namespace ContinuousMonitor

open OpenSeaMonitor

/-- A scan that finds no collection with an alert leaves the monitor as it is. -/
theorem scanUpdate_nil (m : ContinuousMonitor) (now : String) : scanUpdate m [] now = m :=
  rfl

/-- The history after a scan that finds a collection with an alert: one summary
is appended and the last 100 entries are kept. -/
theorem scanUpdate_history (m : ContinuousMonitor) (unusual : List ScanResult) (now : String)
    (h : unusual ≠ []) :
    ∃ summary : ScanCycleSummary, summary.timestamp = now ∧
      (scanUpdate m unusual now).alertHistory =
        (m.alertHistory ++ [summary]).drop ((m.alertHistory ++ [summary]).length - 100) := by
  have hlen : ¬ unusual.length = 0 := fun h0 => h (List.length_eq_zero.1 h0)
  refine ⟨{ timestamp := now, totalAlerts := unusual.length,
            highPriorityCount := (forEachFrom now 0 unusual
              { highPriorityAlerts := m.highPriorityAlerts, newHighPriorityCount := 0,
                newAlerts := [] }).newHighPriorityCount,
            alerts := (forEachFrom now 0 unusual
              { highPriorityAlerts := m.highPriorityAlerts, newHighPriorityCount := 0,
                newAlerts := [] }).newAlerts }, rfl, ?_⟩
  unfold scanUpdate
  rw [if_neg hlen]
  simp only
  split
  · rfl
  · rename_i hle
    have h0 : ∀ l : List ScanCycleSummary, ¬ l.length > 100 → l = l.drop (l.length - 100) := by
      intro l hl
      have hz : l.length - 100 = 0 := by omega
      rw [hz]
      rfl
    exact h0 _ hle

/-- A scan keeps a history of at most 100 entries within 100 entries, and cuts
any history to 100 entries when it finds a collection with an alert. -/
theorem scanUpdate_length (m : ContinuousMonitor) (unusual : List ScanResult) (now : String) :
    (m.alertHistory.length ≤ 100 ∨ unusual ≠ []) →
      (scanUpdate m unusual now).alertHistory.length ≤ 100 := by
  intro h
  by_cases hu : unusual = []
  · subst hu
    rw [scanUpdate_nil]
    rcases h with h | h
    · exact h
    · exact absurd rfl h
  · obtain ⟨summary, _, heq⟩ := scanUpdate_history m unusual now hu
    rw [heq, List.length_drop]
    omega

/-- A sequence of scans keeps a history of at most 100 entries within 100
entries. -/
theorem runScans_length (envs : List ScanEnv) :
    ∀ m : ContinuousMonitor, m.alertHistory.length ≤ 100 →
      (runScans m envs).alertHistory.length ≤ 100 := by
  induction envs with
  | nil => intro m h; exact h
  | cons env rest ih =>
    intro m h
    show (runScans (runScan m env).monitor rest).alertHistory.length ≤ 100
    exact ih _ (scanUpdate_length m _ env.now (Or.inl h))

/-- The history that `init` loads from a file whose log, if it holds one, has
at most 100 entries. -/
theorem init_length (m : ContinuousMonitor) (file : LogFileState)
    (h : ∀ data, file = LogFileState.content (FileContent.log data) →
      data.alertHistory.length ≤ 100) :
    (init m file).alertHistory.length ≤ 100 := by
  cases file with
  | absent => simp [init, readFile, bind, Except.bind]
  | unreadable => simp [init, readFile, bind, Except.bind]
  | content c =>
    cases c with
    | invalid text => simp [init, readFile, parseAlertHistory, bind, Except.bind]
    | jsonNull => simp [init, readFile, parseAlertHistory, bind, Except.bind]
    | noHistory => simp [init, readFile, parseAlertHistory, bind, Except.bind]
    | log data =>
      have := h data rfl
      simpa [init, readFile, parseAlertHistory, bind, Except.bind] using this

/-- A log that the program brought about holds at most 100 history entries. -/
theorem persisted_length {file : LogFileState} (hp : Persisted file) :
    ∀ data, file = LogFileState.content (FileContent.log data) →
      data.alertHistory.length ≤ 100 := by
  induction hp with
  | noLog file h => intro data hd; exact absurd hd (h data)
  | written m file envs now _ ih =>
    intro data hd
    injection hd with hd
    injection hd with hd
    subst hd
    exact runScans_length envs _ (init_length m file ih)

/-- C14: for every log file that the program brought about (no log yet, or a
log that `saveLog` wrote for a monitor that had loaded such a file and run
scans), loaded by `init`, and every sequence of scans, whatever each of them
finds, `alertHistory` has at most 100 entries after the sequence, hence after
each `runScan` of it. -/
theorem history_capped (m : ContinuousMonitor) (file : LogFileState) (envs : List ScanEnv)
    (hp : Persisted file) :
    (runScans (init m file) envs).alertHistory.length ≤ 100 ∧
    ∀ k, (runScans (init m file) (envs.take k)).alertHistory.length ≤ 100 :=
  ⟨runScans_length envs _ (init_length m file (persisted_length hp)),
   fun k => runScans_length (envs.take k) _ (init_length m file (persisted_length hp))⟩

/-- Witness for C14: the log written after a first scan is loaded again, and
two more scans run, one that finds nothing and one that finds the collection
`hot`. -/
theorem history_capped_witness :
    Persisted writtenLog ∧
    (runScans (init ContinuousMonitor.new writtenLog)
      [idleEnv, hotEnv]).alertHistory.length ≤ 100 :=
  ⟨Persisted.written ContinuousMonitor.new LogFileState.absent [hotEnv]
      "2025-01-02T00:00:00.000Z" (Persisted.noLog _ (fun _ h => by cases h)),
   (history_capped ContinuousMonitor.new writtenLog [idleEnv, hotEnv]
     (Persisted.written ContinuousMonitor.new LogFileState.absent [hotEnv]
      "2025-01-02T00:00:00.000Z" (Persisted.noLog _ (fun _ h => by cases h)))).1⟩

/-- A log file with 101 history entries, which `saveLog` never writes, is
loaded as it is, and a scan that finds nothing leaves the 101 entries: the cut
to the last 100 sits in the branch that pushes a summary. -/
theorem init_longLog_not_cut :
    (runScan (init ContinuousMonitor.new longLog) idleEnv).monitor.alertHistory.length = 101 := by
  show (init ContinuousMonitor.new longLog).alertHistory.length = 101
  simp [init, readFile, parseAlertHistory, bind, Except.bind, longLog]

/-- C15: when a scan appends its summary to a history that then has more than
100 entries, the history after `runScan` is the last 100 entries of the
extended history, in their order, the new summary last; the entries dropped
are the first ones, so when timestamps do not decrease along the extended
history, no dropped entry has a timestamp above that of a kept entry. -/
theorem eviction_oldest_first (m : ContinuousMonitor) (env : ScanEnv)
    (hfound : scanTopCollections env.listing env.now ≠ [])
    (hlong : 100 < m.alertHistory.length + 1) :
    ∃ summary : ScanCycleSummary, summary.timestamp = env.now ∧
      (runScan m env).monitor.alertHistory =
        (m.alertHistory ++ [summary]).drop ((m.alertHistory ++ [summary]).length - 100) ∧
      (runScan m env).monitor.alertHistory.length = 100 ∧
      (runScan m env).monitor.alertHistory.getLast? = some summary ∧
      (m.alertHistory ++ [summary]).take ((m.alertHistory ++ [summary]).length - 100)
        ++ (runScan m env).monitor.alertHistory = m.alertHistory ++ [summary] ∧
      ((m.alertHistory ++ [summary]).Pairwise (fun a b => a.timestamp ≤ b.timestamp) →
        ∀ x ∈ (m.alertHistory ++ [summary]).take ((m.alertHistory ++ [summary]).length - 100),
          ∀ y ∈ (runScan m env).monitor.alertHistory, x.timestamp ≤ y.timestamp) := by
  obtain ⟨summary, hts, heq⟩ := scanUpdate_history m _ env.now hfound
  have heq' : (runScan m env).monitor.alertHistory =
      (m.alertHistory ++ [summary]).drop ((m.alertHistory ++ [summary]).length - 100) := heq
  have hlen : (m.alertHistory ++ [summary]).length = m.alertHistory.length + 1 := by simp
  refine ⟨summary, hts, heq', ?_, ?_, ?_, ?_⟩
  · rw [heq', List.length_drop]
    omega
  · rw [heq', List.getLast?_drop, if_neg (by omega)]
    simp
  · rw [heq']
    exact List.take_append_drop _ _
  · intro hsorted x hx y hy
    rw [heq'] at hy
    rw [← List.take_append_drop ((m.alertHistory ++ [summary]).length - 100)
      (m.alertHistory ++ [summary])] at hsorted
    exact (List.pairwise_append.1 hsorted).2.2 x hx y hy

end ContinuousMonitor

namespace ContinuousMonitor

open OpenSeaMonitor

/-- Witness for C15: a history of 101 entries and a scan that finds the
collection `hot`. -/
theorem eviction_oldest_first_witness :
    scanTopCollections hotEnv.listing hotEnv.now ≠ [] ∧
    100 < (init ContinuousMonitor.new longLog).alertHistory.length + 1 ∧
    (runScan (init ContinuousMonitor.new longLog) hotEnv).monitor.alertHistory.length = 100 := by
  have hA : scanTopCollections hotEnv.listing hotEnv.now ≠ [] := by
    have hscan : scanTopCollections hotEnv.listing hotEnv.now = _ :=
      scanTopCollections_single "hot" hotEnv.now hotStats buildAlerts_hotStats_ne
    rw [hscan]
    simp
  have hB : 100 < (init ContinuousMonitor.new longLog).alertHistory.length + 1 := by
    simp [init, readFile, parseAlertHistory, bind, Except.bind, longLog]
  obtain ⟨_, _, _, hlen, _⟩ :=
    eviction_oldest_first (init ContinuousMonitor.new longLog) hotEnv hA hB
  exact ⟨hA, hB, hlen⟩

/-! ## The log file -/

/-- What `init` does to the fields: the history is the one of the log in the
file, or empty, and no other field changes. -/
theorem init_fields (m : ContinuousMonitor) (file : LogFileState) :
    (init m file).highPriorityAlerts = m.highPriorityAlerts ∧
    (init m file).isRunning = m.isRunning ∧
    (init m file).alertHistory =
      match file with
      | LogFileState.content (FileContent.log data) => data.alertHistory
      | _ => [] := by
  cases file with
  | absent => exact ⟨rfl, rfl, rfl⟩
  | unreadable => exact ⟨rfl, rfl, rfl⟩
  | content c => cases c <;> exact ⟨rfl, rfl, rfl⟩

/-- C16, as the code has it: writing a monitor's state with `saveLog` and
loading that file into a fresh monitor with `init` gives back the same
`alertHistory`, in length and order; the watch list is written to the file but
is not read back, so `highPriorityAlerts` of the fresh monitor is empty. -/
theorem save_load_history (m : ContinuousMonitor) (now : String) :
    (init ContinuousMonitor.new
      (LogFileState.content (FileContent.log (saveLog m now)))).alertHistory
      = m.alertHistory ∧
    (saveLog m now).highPriorityAlerts = m.highPriorityAlerts ∧
    (init ContinuousMonitor.new
      (LogFileState.content (FileContent.log (saveLog m now)))).highPriorityAlerts = [] :=
  ⟨rfl, rfl, rfl⟩

/-- C16 fails as stated: the state of a monitor whose watch list holds one
entry is saved and loaded into a fresh monitor, whose watch list is then empty
and not the one saved. -/
theorem save_load_counterexample :
    staleMonitor.highPriorityAlerts = [staleEntry] ∧
    (init ContinuousMonitor.new (LogFileState.content (FileContent.log
      (saveLog staleMonitor "2025-01-03T00:00:00.000Z")))).highPriorityAlerts = [] ∧
    (init ContinuousMonitor.new (LogFileState.content (FileContent.log
      (saveLog staleMonitor "2025-01-03T00:00:00.000Z")))).highPriorityAlerts.length
      ≠ staleMonitor.highPriorityAlerts.length :=
  ⟨rfl, rfl, by decide⟩

/-! ## Failures during a scan -/

/-- The analysis of a listed collection in `scanTopCollections` is dropped when
the fetch of its stats failed. -/
theorem scanTopCollections_filter (collections : List (String × Option CollectionStats))
    (now : String) :
    scanTopCollections (some collections) now
      = scanTopCollections (some ((collections.take 20).filter (fun c => c.2.isSome))) now := by
  have htake : ((collections.take 20).filter (fun c => c.2.isSome)).take 20
      = (collections.take 20).filter (fun c => c.2.isSome) := by
    apply List.take_of_length_le
    exact le_trans (List.length_filter_le _ _) (List.length_take_le _ _)
  unfold scanTopCollections
  simp only [htake, List.filterMap_filter]
  congr 1
  apply List.filterMap_congr
  intro c _
  cases hc : c.2 with
  | none => simp [detectUnusualActivity]
  | some stats => simp

/-- The pumped collection raises an alert. -/
theorem buildAlerts_pumpStats_ne : buildAlerts pumpStats ≠ [] := by
  decide!

/-- C17, as the code has it: a failed fetch does not abort the batch:
`scanTopCollections` returns what it returns for the first 20 listed
collections with the failing ones removed, which is the listing with the
failing collections removed when at most 20 are listed; so for five
collections that all raise alerts and a failing third fetch it returns four
results; `runScan` has the same outcome as for that reduced batch, and writes
the log when the trending section and the write itself do not fail. -/
theorem fetch_failure_skipped (m : ContinuousMonitor) (env : ScanEnv)
    (collections : List (String × Option CollectionStats))
    (hl : env.listing = some collections) :
    scanTopCollections env.listing env.now
      = scanTopCollections
          (some ((collections.take 20).filter (fun c => c.2.isSome))) env.now ∧
    (collections.length ≤ 20 →
      scanTopCollections env.listing env.now
        = scanTopCollections (some (collections.filter (fun c => c.2.isSome))) env.now) ∧
    runScan m env
      = runScan m { env with
          listing := some ((collections.take 20).filter (fun c => c.2.isSome)) } ∧
    (env.trendingThrows = false → env.writeFails = false →
      (runScan m env).written = some (saveLog (runScan m env).monitor env.now)) ∧
    (scanTopCollections (some fiveListing) env.now).length = 4 := by
  have h1 := scanTopCollections_filter collections env.now
  refine ⟨?_, ?_, ?_, ?_, ?_⟩
  · rw [hl]; exact h1
  · intro hlen
    rw [hl, h1, List.take_of_length_le hlen]
  · unfold runScan
    simp only [hl, h1]
  · intro ht hw
    simp [runScan, ht, hw]
  · have hlen : 0 < (buildAlerts pumpStats).length := List.length_pos.2 buildAlerts_pumpStats_ne
    simp [scanTopCollections, detectUnusualActivity, fiveListing, hlen, List.length_mergeSort]

/-- Witness for C17: the five listed collections with the failing third
fetch. -/
theorem fetch_failure_skipped_witness :
    ({ hotEnv with listing := some fiveListing } : ScanEnv).listing = some fiveListing ∧
    runScan ContinuousMonitor.new { hotEnv with listing := some fiveListing }
      = runScan ContinuousMonitor.new
          { ({ hotEnv with listing := some fiveListing } : ScanEnv) with
            listing := some ((fiveListing.take 20).filter (fun c => c.2.isSome)) } :=
  ⟨rfl, (fetch_failure_skipped ContinuousMonitor.new
    { hotEnv with listing := some fiveListing } fiveListing rfl).2.2.1⟩

/-- C17 fails as stated: of 21 listed collections whose first fetch fails,
only the first 20 are analysed, the failing one among them, and the scan
returns nothing; for the batch with the failing collection removed, the
collection `hot`, then the 20th one, is analysed and the scan returns it with
its score of 80. -/
theorem fetch_failure_counterexample :
    overfullListing.length = 21 ∧
    scanTopCollections (some overfullListing) "2025-01-02T00:00:00.000Z" = [] ∧
    (scanTopCollections (some (overfullListing.filter (fun c => c.2.isSome)))
      "2025-01-02T00:00:00.000Z").map (fun r => (r.collection, r.riskScore)) = [("hot", 80)] := by
  have hq : (buildAlerts quietStats).length = 0 := by rw [buildAlerts_quietStats]; rfl
  have hh : 0 < (buildAlerts hotStats).length := List.length_pos.2 buildAlerts_hotStats_ne
  refine ⟨rfl, ?_, ?_⟩
  · simp [scanTopCollections, detectUnusualActivity, overfullListing, List.replicate, hq]
  · simp [scanTopCollections, detectUnusualActivity, overfullListing, List.replicate, hq, hh,
      riskScore_hotStats]

/-- C18: `runScan` catches what its `try` block throws: it ends with the fields
that the block left and without a written log; so the fields after the scan do
not depend on whether the trending section or the write of the log failed. -/
theorem runScan_catches (m : ContinuousMonitor) (env : ScanEnv) :
    (runScan m env).monitor = (runScanTry m env).1 ∧
    (runScan m env).written =
      (match (runScanTry m env).2 with
       | Except.ok data => some data
       | Except.error _ => none) ∧
    (runScan m { env with writeFails := true }).monitor
      = (runScan m { env with writeFails := false }).monitor ∧
    (runScan m { env with writeFails := true }).monitor.alertHistory
      = (runScan m { env with writeFails := false }).monitor.alertHistory ∧
    (runScan m { env with writeFails := true }).monitor.highPriorityAlerts
      = (runScan m { env with writeFails := false }).monitor.highPriorityAlerts ∧
    (runScan m { env with trendingThrows := true }).monitor
      = (runScan m { env with trendingThrows := false }).monitor ∧
    (runScan m { env with listing := none }).monitor = m := by
  refine ⟨?_, ?_, rfl, rfl, rfl, rfl, rfl⟩
  · unfold runScan runScanTry
    cases env.trendingThrows <;> cases env.writeFails <;> rfl
  · unfold runScan runScanTry
    cases env.trendingThrows <;> cases env.writeFails <;> rfl

/-- C19: when the log file is missing, cannot be read, or holds a text that is
not JSON, the `try` of `init` throws, the `catch` takes over, and `init` ends
with an empty `alertHistory`. -/
theorem init_missing_or_corrupt (m : ContinuousMonitor) (file : LogFileState)
    (h : file = LogFileState.absent ∨ file = LogFileState.unreadable ∨
      ∃ text, file = LogFileState.content (FileContent.invalid text)) :
    (∃ err, (readFile file >>= parseAlertHistory) = Except.error err) ∧
    (init m file).alertHistory = [] := by
  rcases h with h | h | ⟨text, h⟩ <;> subst h
  · exact ⟨⟨_, rfl⟩, rfl⟩
  · exact ⟨⟨_, rfl⟩, rfl⟩
  · exact ⟨⟨_, rfl⟩, rfl⟩

/-- Witness for C19: a log file that holds a text that is not JSON. -/
theorem init_missing_or_corrupt_witness :
    (LogFileState.content (FileContent.invalid "alertHistory: not json") = LogFileState.absent ∨
      LogFileState.content (FileContent.invalid "alertHistory: not json")
        = LogFileState.unreadable ∨
      ∃ text, LogFileState.content (FileContent.invalid "alertHistory: not json")
        = LogFileState.content (FileContent.invalid text)) ∧
    (init staleMonitor
      (LogFileState.content (FileContent.invalid "alertHistory: not json"))).alertHistory = [] :=
  ⟨Or.inr (Or.inr ⟨_, rfl⟩),
   (init_missing_or_corrupt staleMonitor _ (Or.inr (Or.inr ⟨_, rfl⟩))).2⟩

/-- C20: `start` on a running monitor changes nothing: the log is not loaded,
no scan runs, no timer is armed, and the fields, the file and the timers are
as before; `stop` on a monitor that is not running changes nothing, writes no
log and does not throw. -/
theorem start_stop_noop (running idle : World) (env : ScanEnv) (timer : Nat) (now : String)
    (writeFails : Bool) (hr : running.monitor.isRunning = true)
    (hi : idle.monitor.isRunning = false) :
    start running env timer = running ∧ stop idle now writeFails = (idle, false) := by
  constructor
  · unfold start
    rw [if_pos hr]
  · unfold stop
    simp [hi]

/-- Witness for C20: a running monitor with one armed timer, and a monitor
that was never started. -/
theorem start_stop_noop_witness :
    runningWorld.monitor.isRunning = true ∧ idleWorld.monitor.isRunning = false ∧
    start runningWorld hotEnv 2 = runningWorld ∧
    stop idleWorld "2025-01-03T00:00:00.000Z" false = (idleWorld, false) :=
  ⟨rfl, rfl, start_stop_noop runningWorld idleWorld hotEnv 2 "2025-01-03T00:00:00.000Z" false
    rfl rfl⟩

end ContinuousMonitor


/-! ## Messages and the zero baseline -/

namespace OpenSeaMonitor

open JSNum

/-- The floor rule with no baseline: a positive floor over an average price of
0 gives an infinite percentage, hence a HIGH FLOOR_PUMP alert. -/
theorem floorAlerts_zero_baseline (s : CollectionStats) (f : ℚ) (hf : 0 < f)
    (hd : round64 f = fin f) (hfloor : s.floorPrice = fin f)
    (havg : s.oneDayAveragePrice = fin 0) :
    floorAlerts s =
      [{ type := "FLOOR_PUMP", severity := Severity.HIGH,
         message := "Floor pumped Infinity%",
         extra := [("currentFloor", fin f), ("previousAvg", fin 0)] }] := by
  have hne : f ≠ 0 := ne_of_gt hf
  have hpc : priceChange s = pinf := by
    simp [priceChange, hfloor, havg, sub, div, mul, sgn, ofSign, hd, hne, hf]
  simp only [floorAlerts, hpc, hfloor, havg]
  rfl

/-- C21 fails on the code: for stats with a floor of 1.3 and an average price
of 0, the alert list of `detectUnusualActivity` holds a FLOOR_PUMP alert of
severity HIGH whose message is `Floor pumped Infinity%`. -/
theorem zero_baseline_floor_pump :
    zeroAvgStats.oneDayAveragePrice = fin 0 ∧
    ∃ a ∈ buildAlerts zeroAvgStats,
      a.type = "FLOOR_PUMP" ∧ a.severity = Severity.HIGH ∧
      a.message = "Floor pumped Infinity%" := by
  have hfloor : zeroAvgStats.floorPrice = fin (5854679515581645 / 4503599627370496) := by
    decide!
  have h := floorAlerts_zero_baseline zeroAvgStats (5854679515581645 / 4503599627370496)
    (by norm_num) (by decide!) hfloor rfl
  refine ⟨rfl, { type := "FLOOR_PUMP", severity := Severity.HIGH,
                 message := "Floor pumped Infinity%",
                 extra := [("currentFloor", fin (5854679515581645 / 4503599627370496)),
                   ("previousAvg", fin 0)] },
    ?_, rfl, rfl, rfl⟩
  simp only [buildAlerts, List.mem_append]
  exact Or.inl (Or.inr (by rw [h]; exact List.mem_singleton.2 rfl))

end OpenSeaMonitor

namespace OpenSeaMonitor

open JSNum

/-- The floor rule on the scenario of a floor of 1.30 over an average price of
1.00: the code computes a change of 30.000000000000004%, printed as `30.0`. -/
theorem floorAlerts_scenario (s : CollectionStats) (hfloor : s.floorPrice = lit (13 / 10))
    (havg : s.oneDayAveragePrice = fin 1) :
    floorAlerts s =
      [{ type := "FLOOR_PUMP", severity := Severity.MEDIUM,
         message := "Floor pumped 30.0%",
         extra := [("currentFloor", lit (13 / 10)), ("previousAvg", fin 1)] }] := by
  have h1 : floorAlerts s = floorAlerts scenarioStats := by
    simp only [floorAlerts, priceChange, hfloor, havg]
    rfl
  rw [h1]
  decide!

/-- C25: for stats with a floor of 1.30 (the double nearest to it) and an
average price of 1.00, whatever the other fields, the relative delta is 0.30
(0.30000000000000004 in double precision, 0.30 to two decimals) and the alert
list holds exactly one FLOOR_PUMP alert and no FLOOR_DUMP alert; the FLOOR_PUMP
alert has severity MEDIUM and its message, `Floor pumped 30.0%`, contains
`30.0%`. -/
theorem floor_scenario (s : CollectionStats) (hfloor : s.floorPrice = lit (13 / 10))
    (havg : s.oneDayAveragePrice = fin 1) :
    toFixed (div (JSNum.abs (sub s.floorPrice s.oneDayAveragePrice)) s.oneDayAveragePrice) 2
      = "0.30" ∧
    toStr (div (JSNum.abs (sub s.floorPrice s.oneDayAveragePrice)) s.oneDayAveragePrice)
      = "0.30000000000000004" ∧
    ((buildAlerts s).filter (fun a => decide (a.type = "FLOOR_PUMP"))).length = 1 ∧
    (∀ a ∈ buildAlerts s, a.type ≠ "FLOOR_DUMP") ∧
    (∀ a ∈ buildAlerts s, a.type = "FLOOR_PUMP" →
      a.severity = Severity.MEDIUM ∧ a.message = "Floor pumped 30.0%" ∧
      "30.0%".data <:+: a.message.data) := by
  have hfl := floorAlerts_scenario s hfloor havg
  have hmem : ∀ a ∈ buildAlerts s, a.type = "FLOOR_PUMP" ∨ a.type = "FLOOR_DUMP" →
      a = { type := "FLOOR_PUMP", severity := Severity.MEDIUM,
            message := "Floor pumped 30.0%",
            extra := [("currentFloor", lit (13 / 10)), ("previousAvg", fin 1)] } := by
    intro a ha hty
    have h1 := (mem_floorAlerts_iff s a).1 ⟨ha, hty⟩
    rw [hfl] at h1
    exact List.mem_singleton.1 h1
  refine ⟨?_, ?_, ?_, ?_, ?_⟩
  · rw [hfloor, havg]
    decide!
  · rw [hfloor, havg]
    decide!
  · have hsub : (buildAlerts s).filter (fun a => decide (a.type = "FLOOR_PUMP"))
        = ((buildAlerts s).filter
            (fun a => decide (a.type = "FLOOR_PUMP" ∨ a.type = "FLOOR_DUMP"))).filter
            (fun a => decide (a.type = "FLOOR_PUMP")) := by
      rw [List.filter_filter]
      congr 1
      funext a
      by_cases h : a.type = "FLOOR_PUMP" <;> simp [h]
    rw [hsub, filter_floor, hfl]
    rfl
  · intro a ha hty
    have := hmem a ha (Or.inr hty)
    rw [this] at hty
    exact absurd hty (by decide)
  · intro a ha hty
    have := hmem a ha (Or.inl hty)
    subst this
    exact ⟨rfl, rfl, ⟨"Floor pumped ".data, [], rfl⟩⟩

/-- Witness for C25: the scenario with a supply of 10 and no sales. -/
theorem floor_scenario_witness :
    scenarioStats.floorPrice = lit (13 / 10) ∧ scenarioStats.oneDayAveragePrice = fin 1 ∧
    ((buildAlerts scenarioStats).filter (fun a => decide (a.type = "FLOOR_PUMP"))).length = 1 :=
  ⟨rfl, rfl, (floor_scenario scenarioStats rfl rfl).2.2.1⟩

end OpenSeaMonitor

namespace OpenSeaMonitor

open JSNum

/-- The sales rule on `capStats`: 40 sales against a daily average of 10. -/
theorem salesAlerts_capStats :
    salesAlerts capStats =
      [{ type := "SALES_SPIKE", severity := Severity.HIGH,
         message := "Sales 3x above 30-day average (40 vs 10)",
         extra := [("value", fin 40), ("average", fin 10)] }] := by
  decide!

/-- The market-cap rule on `capStats`: a change of 3000. -/
theorem marketCapAlerts_capStats :
    marketCapAlerts capStats =
      [{ type := "MARKET_CAP_SHIFT", severity := Severity.HIGH,
         message := "Market cap increased by 3000 ETH",
         extra := [("currentMarketCap", fin 0), ("change", fin 3000)] }] := by
  decide!

/-- The floor rule on a floor of 103 over an average price of 80: the code
computes a change of 28.749999999999996%, printed as `28.7`. -/
theorem floorAlerts_roundedStats :
    toStr (priceChange roundedStats) = "28.749999999999996" ∧
    (floorAlerts roundedStats).map (fun a => a.message) = ["Floor pumped 28.7%"] := by
  decide!

/-- C24 fails as stated: for `capStats` the SALES_SPIKE message is
`Sales 3x above 30-day average (40 vs 10)` and the MARKET_CAP_SHIFT message is
`Market cap increased by 3000 ETH`; neither holds the one-decimal form of its
magnitude (`40.0`, `10.0`, `3000.0`). -/
theorem message_decimals_counterexample :
    (∃ a ∈ buildAlerts capStats, a.type = "SALES_SPIKE" ∧
      a.message = "Sales 3x above 30-day average (40 vs 10)" ∧
      ¬ (toFixed capStats.oneDaySales 1).data <:+: a.message.data ∧
      ¬ (toFixed (fin 10) 1).data <:+: a.message.data) ∧
    (∃ a ∈ buildAlerts capStats, a.type = "MARKET_CAP_SHIFT" ∧
      a.message = "Market cap increased by 3000 ETH" ∧
      ¬ (toFixed (fin 3000) 1).data <:+: a.message.data) := by
  constructor
  · refine ⟨{ type := "SALES_SPIKE", severity := Severity.HIGH,
              message := "Sales 3x above 30-day average (40 vs 10)",
              extra := [("value", fin 40), ("average", fin 10)] }, ?_, rfl, rfl, ?_, ?_⟩
    · simp only [buildAlerts, List.mem_append]
      exact Or.inl (Or.inl (Or.inr (by rw [salesAlerts_capStats]; exact List.mem_singleton.2 rfl)))
    · decide
    · decide
  · refine ⟨{ type := "MARKET_CAP_SHIFT", severity := Severity.HIGH,
              message := "Market cap increased by 3000 ETH",
              extra := [("currentMarketCap", fin 0), ("change", fin 3000)] }, ?_, rfl, rfl, ?_⟩
    · simp only [buildAlerts, List.mem_append]
      exact Or.inr (by rw [marketCapAlerts_capStats]; exact List.mem_singleton.2 rfl)
    · decide

/-- The message of the volume rule. -/
theorem message_of_mem_volumeAlerts {s : CollectionStats} {a : Alert}
    (h : a ∈ volumeAlerts s) :
    a.message = "Volume surged " ++ toFixed s.oneDayChange 1 ++ "% in 24h" := by
  unfold volumeAlerts at h
  split at h
  · simp only [List.mem_singleton] at h; subst h; rfl
  · simp at h

/-- The message of the sales rule. -/
theorem message_of_mem_salesAlerts {s : CollectionStats} {a : Alert}
    (h : a ∈ salesAlerts s) :
    a.message = "Sales 3x above 30-day average (" ++ toStr s.oneDaySales ++ " vs "
      ++ toFixed (avgDailySales s) 0 ++ ")" := by
  unfold salesAlerts at h
  split at h
  · simp only [List.mem_singleton] at h; subst h; rfl
  · simp at h

/-- The type and the message of the floor rule. -/
theorem message_of_mem_floorAlerts {s : CollectionStats} {a : Alert}
    (h : a ∈ floorAlerts s) :
    (a.type = "FLOOR_PUMP" ∧
      a.message = "Floor pumped " ++ toFixed (JSNum.abs (priceChange s)) 1 ++ "%") ∨
    (a.type = "FLOOR_DUMP" ∧
      a.message = "Floor dumped " ++ toFixed (JSNum.abs (priceChange s)) 1 ++ "%") := by
  unfold floorAlerts at h
  split at h
  · simp only [List.mem_singleton] at h
    subst h
    by_cases hp : gt (priceChange s) (fin 0) = true
    · left; simp only [hp, if_true]; constructor <;> first | rfl | trivial
    · right; simp only [hp, if_false]; exact ⟨rfl, rfl⟩
  · simp at h

/-- The message of the market-cap rule. -/
theorem message_of_mem_marketCapAlerts {s : CollectionStats} {a : Alert}
    (h : a ∈ marketCapAlerts s) :
    a.message = "Market cap increased by "
        ++ toFixed (JSNum.abs (marketCapChange s)) 0 ++ " ETH" ∨
    a.message = "Market cap decreased by "
        ++ toFixed (JSNum.abs (marketCapChange s)) 0 ++ " ETH" := by
  unfold marketCapAlerts at h
  split at h
  · simp only [List.mem_singleton] at h
    subst h
    by_cases hp : gt (marketCapChange s) (fin 0) = true
    · left; simp only [hp, if_true]; rfl
    · right; simp only [hp, if_false]; rfl
  · simp at h

/-- C24, as the code has it: the VOLUME_SURGE message holds the volume change
and the FLOOR_PUMP and FLOOR_DUMP messages hold the magnitude of the price
change, each rounded to one decimal place; the SALES_SPIKE message holds the
number of sales as it is and the daily average rounded to an integer, and the
MARKET_CAP_SHIFT message holds the magnitude of the change rounded to an
integer. -/
theorem message_formats (s : CollectionStats) :
    ∀ a ∈ buildAlerts s,
      (a.type = "VOLUME_SURGE" →
        a.message = "Volume surged " ++ toFixed s.oneDayChange 1 ++ "% in 24h") ∧
      (a.type = "FLOOR_PUMP" →
        a.message = "Floor pumped " ++ toFixed (JSNum.abs (priceChange s)) 1 ++ "%") ∧
      (a.type = "FLOOR_DUMP" →
        a.message = "Floor dumped " ++ toFixed (JSNum.abs (priceChange s)) 1 ++ "%") ∧
      (a.type = "SALES_SPIKE" →
        a.message = "Sales 3x above 30-day average (" ++ toStr s.oneDaySales ++ " vs "
          ++ toFixed (avgDailySales s) 0 ++ ")") ∧
      (a.type = "MARKET_CAP_SHIFT" →
        a.message = "Market cap increased by "
            ++ toFixed (JSNum.abs (marketCapChange s)) 0 ++ " ETH" ∨
        a.message = "Market cap decreased by "
            ++ toFixed (JSNum.abs (marketCapChange s)) 0 ++ " ETH") := by
  intro a ha
  simp only [buildAlerts, List.mem_append] at ha
  rcases ha with ((ha | ha) | ha) | ha
  · have hty := type_of_mem_volumeAlerts ha
    rw [hty]
    exact ⟨fun _ => message_of_mem_volumeAlerts ha, fun h => absurd h (by decide),
      fun h => absurd h (by decide), fun h => absurd h (by decide),
      fun h => absurd h (by decide)⟩
  · have hty := type_of_mem_salesAlerts ha
    rw [hty]
    exact ⟨fun h => absurd h (by decide), fun h => absurd h (by decide),
      fun h => absurd h (by decide), fun _ => message_of_mem_salesAlerts ha,
      fun h => absurd h (by decide)⟩
  · rcases message_of_mem_floorAlerts ha with ⟨hty, hmsg⟩ | ⟨hty, hmsg⟩
    · rw [hty]
      exact ⟨fun h => absurd h (by decide), fun _ => hmsg, fun h => absurd h (by decide),
        fun h => absurd h (by decide), fun h => absurd h (by decide)⟩
    · rw [hty]
      exact ⟨fun h => absurd h (by decide), fun h => absurd h (by decide), fun _ => hmsg,
        fun h => absurd h (by decide), fun h => absurd h (by decide)⟩
  · have hty := type_of_mem_marketCapAlerts ha
    rw [hty]
    exact ⟨fun h => absurd h (by decide), fun h => absurd h (by decide),
      fun h => absurd h (by decide), fun h => absurd h (by decide),
      fun _ => message_of_mem_marketCapAlerts ha⟩

end OpenSeaMonitor

namespace OpenSeaMonitor

open JSNum

/-- Witness for C24: the SALES_SPIKE alert of `capStats`. -/
theorem message_formats_witness :
    ({ type := "SALES_SPIKE", severity := Severity.HIGH,
       message := "Sales 3x above 30-day average (40 vs 10)",
       extra := [("value", fin 40), ("average", fin 10)] } : Alert) ∈ buildAlerts capStats ∧
    (("SALES_SPIKE" : String) = "SALES_SPIKE" →
      "Sales 3x above 30-day average (40 vs 10)"
        = "Sales 3x above 30-day average (" ++ toStr capStats.oneDaySales ++ " vs "
          ++ toFixed (avgDailySales capStats) 0 ++ ")") :=
  have hmem :
      ({ type := "SALES_SPIKE", severity := Severity.HIGH,
         message := "Sales 3x above 30-day average (40 vs 10)",
         extra := [("value", fin 40), ("average", fin 10)] } : Alert)
        ∈ buildAlerts capStats := by
    simp only [buildAlerts, List.mem_append]
    exact Or.inl (Or.inl (Or.inr (by
      rw [salesAlerts_capStats]; exact List.mem_singleton.2 rfl)))
  ⟨hmem, (message_formats capStats _ hmem).2.2.2.1⟩

end OpenSeaMonitor

/-! ## The recommendation and the score on detector results -/

namespace OpenSeaMonitor

open JSNum

/-- C23: `generateRecommendation` depends on the alerts only, and not on their
order: for any two values of `stats`, and any two alert lists that are
rearrangements of one another, the recommendation is the same. -/
theorem generateRecommendation_pure (stats stats' : CollectionStats)
    (alerts alerts' : List Alert) (h : alerts.Perm alerts') :
    generateRecommendation stats alerts = generateRecommendation stats' alerts' := by
  by_cases hnil : alerts = []
  · subst hnil
    rw [List.Perm.nil_eq h]
    rfl
  · have hnil' : alerts' ≠ [] := by
      intro h0
      subst h0
      exact hnil (List.Perm.eq_nil h)
    have hlen : (alerts.filter (fun a => decide (a.severity = Severity.HIGH))).length
        = (alerts'.filter (fun a => decide (a.severity = Severity.HIGH))).length :=
      (h.filter _).length_eq
    have hm : ∀ t : String, (∃ a ∈ alerts, a.type = t) ↔ (∃ a ∈ alerts', a.type = t) := by
      intro t
      constructor
      · rintro ⟨a, ha, hta⟩; exact ⟨a, h.mem_iff.1 ha, hta⟩
      · rintro ⟨a, ha, hta⟩; exact ⟨a, h.mem_iff.2 ha, hta⟩
    rw [generateRecommendation_cases stats alerts hnil,
      generateRecommendation_cases stats' alerts' hnil']
    simp only [hlen, hm]

/-- Witness for C23: two alerts in either order, with different stats. -/
theorem generateRecommendation_pure_witness :
    [alertOf "SALES_SPIKE" Severity.HIGH, alertOf "FLOOR_PUMP" Severity.MEDIUM].Perm
      [alertOf "FLOOR_PUMP" Severity.MEDIUM, alertOf "SALES_SPIKE" Severity.HIGH] ∧
    generateRecommendation quietStats
        [alertOf "SALES_SPIKE" Severity.HIGH, alertOf "FLOOR_PUMP" Severity.MEDIUM]
      = generateRecommendation pumpStats
        [alertOf "FLOOR_PUMP" Severity.MEDIUM, alertOf "SALES_SPIKE" Severity.HIGH] :=
  ⟨List.Perm.swap _ _ _, generateRecommendation_pure _ _ _ _ (List.Perm.swap _ _ _)⟩

/-- Alerts without a LOW severity, with every SALES_SPIKE of severity HIGH,
weigh at least 40 for each SALES_SPIKE and 20 for each FLOOR_PUMP. -/
theorem weights_sales_floor (l : List Alert)
    (hsev : ∀ a ∈ l, a.severity ≠ Severity.LOW)
    (hss : ∀ a ∈ l, a.type = "SALES_SPIKE" → a.severity = Severity.HIGH) :
    40 * l.countP (fun a => decide (a.type = "SALES_SPIKE"))
        + 20 * l.countP (fun a => decide (a.type = "FLOOR_PUMP"))
      ≤ 40 * l.countP (fun a => decide (a.severity = Severity.HIGH))
        + 20 * l.countP (fun a => decide (a.severity = Severity.MEDIUM)) := by
  induction l with
  | nil => simp
  | cons a rest ih =>
    have ih' := ih (fun b hb => hsev b (List.mem_cons_of_mem _ hb))
      (fun b hb => hss b (List.mem_cons_of_mem _ hb))
    have hsa := hsev a (List.mem_cons_self _ _)
    have hssa := hss a (List.mem_cons_self _ _)
    by_cases h1 : a.type = "SALES_SPIKE"
    · have hH := hssa h1
      simp [List.countP_cons, h1, hH]
      omega
    · by_cases h2 : a.type = "FLOOR_PUMP"
      · cases hs : a.severity with
        | HIGH =>
          simp [List.countP_cons, h2, hs]
          omega
        | MEDIUM =>
          simp [List.countP_cons, h2, hs]
          omega
        | LOW => exact absurd hs hsa
      · simp only [List.countP_cons, h1, h2, decide_False]
        simp only [Bool.false_eq_true, if_false]
        have : 0 ≤ (if decide (a.severity = Severity.HIGH) = true then 1 else 0) := Nat.zero_le _
        split <;> split <;> omega

/-- A BUY on alerts without a LOW severity, with every SALES_SPIKE of severity
HIGH, comes with a score of at least 60. -/
theorem score_of_buy (stats : CollectionStats) (l : List Alert)
    (hsev : ∀ a ∈ l, a.severity ≠ Severity.LOW)
    (hss : ∀ a ∈ l, a.type = "SALES_SPIKE" → a.severity = Severity.HIGH)
    (hbuy : (generateRecommendation stats l).action = "BUY") :
    60 ≤ calculateRiskScore l := by
  have hne : l ≠ [] := by
    intro h
    subst h
    have hhold : (generateRecommendation stats []).action = "HOLD" := rfl
    rw [hhold] at hbuy
    exact absurd hbuy (by decide)
  rw [generateRecommendation_cases stats l hne] at hbuy
  unfold calculateRiskScore
  rw [foldl_weights, Nat.zero_add]
  apply le_min _ (by decide)
  by_cases h1 : 2 ≤ (l.filter (fun a => decide (a.severity = Severity.HIGH))).length ∧
      ((∃ a ∈ l, a.type = "VOLUME_SURGE") ∨ (∃ a ∈ l, a.type = "FLOOR_PUMP"))
  · have := h1.1
    rw [← List.countP_eq_length_filter] at this
    omega
  · rw [if_neg h1] at hbuy
    by_cases h2 : (∃ a ∈ l, a.type = "SALES_SPIKE") ∧ (∃ a ∈ l, a.type = "FLOOR_PUMP")
    · obtain ⟨⟨a1, ha1, ht1⟩, ⟨a2, ha2, ht2⟩⟩ := h2
      have c1 : 0 < l.countP (fun a => decide (a.type = "SALES_SPIKE")) :=
        List.countP_pos_iff.2 ⟨a1, ha1, by simpa using ht1⟩
      have c2 : 0 < l.countP (fun a => decide (a.type = "FLOOR_PUMP")) :=
        List.countP_pos_iff.2 ⟨a2, ha2, by simpa using ht2⟩
      have := weights_sales_floor l hsev hss
      omega
    · rw [if_neg h2] at hbuy
      by_cases h3 : ∃ a ∈ l, a.type = "FLOOR_DUMP"
      · rw [if_pos h3] at hbuy; exact absurd hbuy (by decide)
      · rw [if_neg h3] at hbuy; exact absurd hbuy (by decide)

/-- In the alert list of the detector every SALES_SPIKE has severity HIGH. -/
theorem sales_high_of_mem_buildAlerts {s : CollectionStats} {a : Alert}
    (ha : a ∈ buildAlerts s) (hty : a.type = "SALES_SPIKE") : a.severity = Severity.HIGH := by
  have hm : a ∈ (buildAlerts s).filter (fun a => decide (a.type = "SALES_SPIKE")) :=
    List.mem_filter.2 ⟨ha, by simpa using hty⟩
  rw [filter_sales] at hm
  unfold salesAlerts at hm
  split at hm
  · simp only [List.mem_singleton] at hm; subst hm; rfl
  · simp at hm

/-- A BUY on the alert list of the detector comes with a score of at least 60. -/
theorem score_of_buy_buildAlerts (s : CollectionStats)
    (hbuy : (generateRecommendation s (buildAlerts s)).action = "BUY") :
    60 ≤ calculateRiskScore (buildAlerts s) := by
  apply score_of_buy s (buildAlerts s) _ _ hbuy
  · intro a ha
    rcases severity_of_mem_buildAlerts ha with h | h <;> rw [h] <;> decide
  · intro a ha hty
    exact sales_high_of_mem_buildAlerts ha hty

end OpenSeaMonitor

namespace OpenSeaMonitor

open JSNum

/-- The hot collection gets a BUY. -/
theorem action_hotStats :
    (generateRecommendation hotStats (buildAlerts hotStats)).action = "BUY" := by
  decide!

/-- A result of `scanTopCollections` is what `detectUnusualActivity` returns
for one of the first 20 listed collections. -/
theorem mem_scanTopCollections_detect
    {listing : Option (List (String × Option CollectionStats))} {now : String}
    {r : ScanResult} (h : r ∈ scanTopCollections listing now) :
    ∃ slug stats, detectUnusualActivity slug (some stats) now = some r := by
  unfold scanTopCollections at h
  cases listing with
  | none => simp at h
  | some collections =>
    simp only [List.mem_mergeSort, List.mem_filterMap] at h
    obtain ⟨c, _, hr⟩ := h
    cases hst : c.2 with
    | none => simp [detectUnusualActivity, hst] at hr
    | some stats =>
      rw [hst] at hr
      refine ⟨c.1, stats, ?_⟩
      cases hd : detectUnusualActivity c.1 (some stats) now with
      | none => simp [hd] at hr
      | some analysis =>
        simp only [hd] at hr
        split at hr
        · simp only [Option.some.injEq] at hr
          rw [hr]
        · simp at hr

end OpenSeaMonitor

namespace ContinuousMonitor

open OpenSeaMonitor

/-- C29: on the alert list of the detector a BUY comes with a risk score of at
least 60, so for what `detectUnusualActivity` returns, and hence for every
result of `scanTopCollections`, the test `riskScore >= 60 or action is BUY` of
`runScan` holds exactly when `riskScore >= 60`; the hot collection shows that a
BUY does occur. -/
theorem buy_implies_high_score (s : CollectionStats) :
    ((generateRecommendation s (buildAlerts s)).action = "BUY" →
      60 ≤ calculateRiskScore (buildAlerts s)) ∧
    (∀ (slug now : String) (r : ScanResult),
      detectUnusualActivity slug (some s) now = some r →
      ((60 ≤ r.riskScore ∨ r.recommendation.action = "BUY") ↔ 60 ≤ r.riskScore)) ∧
    (∀ (listing : Option (List (String × Option CollectionStats))) (now : String),
      ∀ r ∈ scanTopCollections listing now,
        (isHighPriority r = true ↔ 60 ≤ r.riskScore)) ∧
    (generateRecommendation hotStats (buildAlerts hotStats)).action = "BUY" := by
  have hdetect : ∀ (stats : CollectionStats) (slug now : String) (r : ScanResult),
      detectUnusualActivity slug (some stats) now = some r →
      ((60 ≤ r.riskScore ∨ r.recommendation.action = "BUY") ↔ 60 ≤ r.riskScore) := by
    intro stats slug now r hr
    simp only [detectUnusualActivity, Option.some.injEq] at hr
    subst hr
    constructor
    · rintro (h | h)
      · exact h
      · exact score_of_buy_buildAlerts stats h
    · intro h; exact Or.inl h
  refine ⟨score_of_buy_buildAlerts s, hdetect s, ?_, action_hotStats⟩
  intro listing now r hr
  obtain ⟨slug, stats, hd⟩ := mem_scanTopCollections_detect hr
  rw [isHighPriority_iff]
  exact hdetect stats slug now r hd

end ContinuousMonitor

/-! ## Whale patterns -/

namespace OpenSeaMonitor

open JSNum

/-- C28: `analyzeWhalePattern` gives one of four labels: NO_WHALES exactly when
the whale list is empty; otherwise WHALE_ACCUMULATION when more than 5
transactions are later than one hour before now; otherwise
MAJOR_WHALE_INTEREST when there are more than 3 whales and the first whale,
the top one in the list that `trackWhaleActivity` sorts by decreasing spend,
spent more than 50; otherwise NORMAL_WHALE_ACTIVITY. -/
theorem analyzeWhalePattern_label (whales : List Whale)
    (transactions : List WhaleTransaction) (now : Int) :
    ((analyzeWhalePattern whales transactions now).pattern = "NO_WHALES" ↔ whales = []) ∧
    (whales ≠ [] → 5 < (transactions.filter (isRecent now)).length →
      (analyzeWhalePattern whales transactions now).pattern = "WHALE_ACCUMULATION") ∧
    (whales ≠ [] → ¬ 5 < (transactions.filter (isRecent now)).length →
      (3 < whales.length ∧ ∃ w, whales.head? = some w ∧ gt w.totalSpent (fin 50) = true) →
      (analyzeWhalePattern whales transactions now).pattern = "MAJOR_WHALE_INTEREST") ∧
    (whales ≠ [] → ¬ 5 < (transactions.filter (isRecent now)).length →
      ¬ (3 < whales.length ∧ ∃ w, whales.head? = some w ∧ gt w.totalSpent (fin 50) = true) →
      (analyzeWhalePattern whales transactions now).pattern = "NORMAL_WHALE_ACTIVITY") ∧
    (∀ tx, isRecent now tx = true ↔ gt tx.time (fin ((now : ℚ) - 3600000)) = true) := by
  have hrecent : ∀ tx, isRecent now tx = true ↔
      gt tx.time (fin ((now : ℚ) - 3600000)) = true := by
    intro tx
    have h : ((now : ℚ) - 60 * 60 * 1000) = (now : ℚ) - 3600000 := by norm_num
    unfold isRecent
    rw [h]
  have hhead : (decide (whales.length > 3) &&
      (match whales.head? with
       | some whale => gt whale.totalSpent (fin 50)
       | none => false)) = true ↔
      (3 < whales.length ∧ ∃ w, whales.head? = some w ∧ gt w.totalSpent (fin 50) = true) := by
    cases hw : whales.head? with
    | none => simp
    | some w => simp
  by_cases hnil : whales = []
  · subst hnil
    refine ⟨⟨fun _ => rfl, fun _ => rfl⟩, fun h => absurd rfl h, fun h => absurd rfl h,
      fun h => absurd rfl h, hrecent⟩
  · have hlen : ¬ whales.length = 0 := fun h => hnil (List.length_eq_zero.1 h)
    by_cases h5 : 5 < (transactions.filter (isRecent now)).length
    · have hp : (analyzeWhalePattern whales transactions now).pattern = "WHALE_ACCUMULATION" := by
        unfold analyzeWhalePattern
        rw [if_neg hlen]
        simp only [gt_iff_lt, h5, if_true]
      refine ⟨⟨fun h => ?_, fun h => absurd h hnil⟩, fun _ _ => hp, fun _ h => absurd h5 h,
        fun _ h => absurd h5 h, hrecent⟩
      rw [hp] at h
      exact absurd h (by decide)
    · by_cases hm : (decide (whales.length > 3) &&
          (match whales.head? with
           | some whale => gt whale.totalSpent (fin 50)
           | none => false)) = true
      · have hp : (analyzeWhalePattern whales transactions now).pattern
            = "MAJOR_WHALE_INTEREST" := by
          unfold analyzeWhalePattern
          rw [if_neg hlen]
          simp only [gt_iff_lt, h5, if_false]
          rw [if_pos hm]
        refine ⟨⟨fun h => ?_, fun h => absurd h hnil⟩, fun _ h => absurd h h5, fun _ _ _ => hp,
          fun _ _ h => absurd (hhead.1 hm) h, hrecent⟩
        rw [hp] at h
        exact absurd h (by decide)
      · have hp : (analyzeWhalePattern whales transactions now).pattern
            = "NORMAL_WHALE_ACTIVITY" := by
          unfold analyzeWhalePattern
          rw [if_neg hlen]
          simp only [gt_iff_lt, h5, if_false]
          rw [if_neg hm]
        refine ⟨⟨fun h => ?_, fun h => absurd h hnil⟩, fun _ h => absurd h h5,
          fun _ _ h => absurd (hhead.2 h) hm, fun _ _ _ => hp, hrecent⟩
        rw [hp] at h
        exact absurd h (by decide)

end OpenSeaMonitor

/-! ## One entry for each collection -/

namespace ContinuousMonitor

open OpenSeaMonitor

/-- One call of the `forEach` callback keeps the collections of the watch list
distinct. -/
theorem nodup_processCollection (now : String) (st : ScanLoop) (index : Nat) (r : ScanResult)
    (h : (st.highPriorityAlerts.map (fun e => e.collection)).Nodup) :
    ((processCollection now st index r).highPriorityAlerts.map
      (fun e => e.collection)).Nodup := by
  rw [processCollection_watch]
  split
  · rename_i hcond
    rw [List.map_append, List.nodup_append]
    refine ⟨h, by simp, ?_⟩
    intro x hx hx'
    simp only [List.map_cons, List.map_nil, List.mem_singleton] at hx'
    obtain ⟨e, he, hec⟩ := List.mem_map.1 hx
    exact hcond.2 e he (hec.trans hx')
  · exact h

/-- The `forEach` keeps the collections of the watch list distinct. -/
theorem nodup_forEachFrom (now : String) (l : List ScanResult) :
    ∀ (index : Nat) (st : ScanLoop),
      (st.highPriorityAlerts.map (fun e => e.collection)).Nodup →
      ((forEachFrom now index l st).highPriorityAlerts.map (fun e => e.collection)).Nodup := by
  induction l with
  | nil => intro index st h; exact h
  | cons r rest ih =>
    intro index st h
    rw [forEachFrom]
    exact ih _ _ (nodup_processCollection now st index r h)

/-- C30: when no two entries of `highPriorityAlerts` share a collection before
`runScan`, none do after it, whatever the scan results are, also when a
collection appears more than once among them. -/
theorem watch_list_nodup (m : ContinuousMonitor) (env : ScanEnv)
    (h : (m.highPriorityAlerts.map (fun e => e.collection)).Nodup) :
    ((runScan m env).monitor.highPriorityAlerts.map (fun e => e.collection)).Nodup := by
  have hrun : (runScan m env).monitor.highPriorityAlerts =
      (forEachFrom env.now 0 (scanTopCollections env.listing env.now)
        { highPriorityAlerts := m.highPriorityAlerts, newHighPriorityCount := 0,
          newAlerts := [] }).highPriorityAlerts :=
    scanUpdate_watch m _ env.now
  rw [hrun]
  exact nodup_forEachFrom env.now _ 0
    { highPriorityAlerts := m.highPriorityAlerts, newHighPriorityCount := 0,
        newAlerts := [] } h

/-- Witness for C30: a fresh monitor and a scan that lists `hot` twice. -/
theorem watch_list_nodup_witness :
    (ContinuousMonitor.new.highPriorityAlerts.map (fun e => e.collection)).Nodup ∧
    ((runScan ContinuousMonitor.new twiceEnv).monitor.highPriorityAlerts.map
      (fun e => e.collection)).Nodup :=
  ⟨List.nodup_nil, watch_list_nodup ContinuousMonitor.new twiceEnv List.nodup_nil⟩

end ContinuousMonitor

/-! ## The summary of a scan -/

namespace ContinuousMonitor

open OpenSeaMonitor

/-- The counter and the logged alerts after one call of the `forEach`
callback. -/
theorem processCollection_log (now : String) (st : ScanLoop) (index : Nat) (r : ScanResult) :
    (processCollection now st index r).newHighPriorityCount =
      st.newHighPriorityCount + (if isHighPriority r = true then 1 else 0) ∧
    (processCollection now st index r).newAlerts =
      st.newAlerts ++ (if index < 5 then r.alerts.map (fun alert =>
        ({ time := now, collection := r.collection, type := alert.type,
           severity := alert.severity, message := alert.message } : LoggedAlert)) else []) := by
  by_cases hp : isHighPriority r = true <;> by_cases hi : index < 5 <;>
    simp [processCollection, hp, hi]

/-- The counter and the logged alerts after the `forEach`: the counter grows by
the number of high-priority results, and the alerts of the results at the
positions below 5 are logged in order. -/
theorem forEachFrom_log (now : String) (l : List ScanResult) :
    ∀ (index : Nat) (st : ScanLoop),
      (forEachFrom now index l st).newHighPriorityCount =
        st.newHighPriorityCount + l.countP isHighPriority ∧
      (forEachFrom now index l st).newAlerts =
        st.newAlerts ++ (l.take (5 - index)).flatMap (fun r => r.alerts.map (fun alert =>
          ({ time := now, collection := r.collection, type := alert.type,
             severity := alert.severity, message := alert.message } : LoggedAlert))) := by
  induction l with
  | nil => intro index st; simp [forEachFrom]
  | cons r rest ih =>
    intro index st
    rw [forEachFrom]
    obtain ⟨h1, h2⟩ := ih (index + 1) (processCollection now st index r)
    obtain ⟨p1, p2⟩ := processCollection_log now st index r
    rw [h1, h2, p1, p2]
    constructor
    · by_cases hp : isHighPriority r = true
      · simp [List.countP_cons, hp]; omega
      · simp [List.countP_cons, hp]
    · by_cases hi : index < 5
      · have h5 : 5 - index = (5 - (index + 1)) + 1 := by omega
        rw [if_pos hi, h5, List.take_succ_cons, List.flatMap_cons, List.append_assoc]
      · have h5 : 5 - index = 0 := by omega
        have h6 : 5 - (index + 1) = 0 := by omega
        rw [if_neg hi, h5, h6]
        simp

/-- The history after a scan that finds a collection with an alert, with the
summary spelled out. -/
theorem scanUpdate_summary (m : ContinuousMonitor) (unusual : List ScanResult) (now : String)
    (h : unusual ≠ []) :
    (scanUpdate m unusual now).alertHistory =
      List.drop ((m.alertHistory.length + 1) - 100)
        (m.alertHistory ++
          [({ timestamp := now, totalAlerts := unusual.length,
              highPriorityCount := unusual.countP isHighPriority,
              alerts := (unusual.take 5).flatMap (fun r => r.alerts.map (fun alert =>
                ({ time := now, collection := r.collection, type := alert.type,
                   severity := alert.severity,
                   message := alert.message } : LoggedAlert))) } : ScanCycleSummary)]) := by
  have hlen : ¬ unusual.length = 0 := fun h0 => h (List.length_eq_zero.1 h0)
  obtain ⟨h1, h2⟩ := forEachFrom_log now unusual 0
    { highPriorityAlerts := m.highPriorityAlerts, newHighPriorityCount := 0, newAlerts := [] }
  unfold scanUpdate
  rw [if_neg hlen]
  simp only [h1, h2, Nat.zero_add, List.nil_append, Nat.sub_zero, List.length_append,
    List.length_singleton]
  split
  · rfl
  · rename_i hle
    have hz : m.alertHistory.length + 1 - 100 = 0 := by omega
    rw [hz]
    rfl

/-- The last entry of the history after a scan that finds a collection with an
alert is the summary of that scan. -/
theorem scanUpdate_last (m : ContinuousMonitor) (unusual : List ScanResult) (now : String)
    (h : unusual ≠ []) :
    (scanUpdate m unusual now).alertHistory.getLast? =
      some { timestamp := now, totalAlerts := unusual.length,
             highPriorityCount := unusual.countP isHighPriority,
             alerts := (unusual.take 5).flatMap (fun r => r.alerts.map (fun alert =>
               ({ time := now, collection := r.collection, type := alert.type,
                  severity := alert.severity, message := alert.message } : LoggedAlert))) } := by
  rw [scanUpdate_summary m unusual now h, List.getLast?_drop,
    if_neg (by simp only [List.length_append, List.length_singleton]; omega)]
  simp

end ContinuousMonitor

namespace ContinuousMonitor

open OpenSeaMonitor

/-- The scan of the collection at rest finds nothing. -/
theorem scanTopCollections_quietEnv :
    scanTopCollections quietEnv.listing quietEnv.now = [] := by
  simp [scanTopCollections, detectUnusualActivity, quietEnv, buildAlerts_quietStats]

/-- C26, as the code has it: a scan that finds at least one collection with
alerts appends one summary for that cycle to `alertHistory`, so that the
history before eviction is the previous one followed by the new summary; a
scan that finds no collection with alerts appends nothing and leaves
`alertHistory` as it was. -/
theorem summary_appended (m : ContinuousMonitor) (env : ScanEnv) :
    (scanTopCollections env.listing env.now ≠ [] →
      ∃ summary : ScanCycleSummary, summary.timestamp = env.now ∧
        (runScan m env).monitor.alertHistory =
          List.drop ((m.alertHistory.length + 1) - 100) (m.alertHistory ++ [summary])) ∧
    (scanTopCollections env.listing env.now = [] →
      (runScan m env).monitor.alertHistory = m.alertHistory) := by
  constructor
  · intro h
    exact ⟨_, rfl, scanUpdate_summary m _ env.now h⟩
  · intro h
    show (scanUpdate m (scanTopCollections env.listing env.now) env.now).alertHistory = _
    rw [h, scanUpdate_nil]

/-- C26 fails as stated: a scan of one listed collection at rest completes and
writes the log, and `alertHistory` is still empty after it. -/
theorem summary_appended_counterexample :
    scanTopCollections quietEnv.listing quietEnv.now = [] ∧
    (runScan ContinuousMonitor.new quietEnv).written =
      some (saveLog ContinuousMonitor.new quietEnv.now) ∧
    (runScan ContinuousMonitor.new quietEnv).monitor.alertHistory = [] := by
  have h := scanTopCollections_quietEnv
  have hm : (runScan ContinuousMonitor.new quietEnv).monitor = ContinuousMonitor.new := by
    show scanUpdate ContinuousMonitor.new (scanTopCollections quietEnv.listing quietEnv.now)
      quietEnv.now = _
    rw [h, scanUpdate_nil]
  refine ⟨h, ?_, ?_⟩
  · show (if quietEnv.trendingThrows || quietEnv.writeFails then none
      else some (saveLog (runScan ContinuousMonitor.new quietEnv).monitor quietEnv.now)) = _
    rw [hm]
    rfl
  · rw [hm]
    rfl

/-- C27, as the code has it: the summary that `runScan` appends has, as its
`alerts`, the alerts of the first five scan results of the cycle, flattened in
result order; its `totalAlerts` is the number of scan results (the collections
with alerts); its `highPriorityCount` is the number of results that qualify as
high priority. -/
theorem summary_consistent (m : ContinuousMonitor) (env : ScanEnv)
    (h : scanTopCollections env.listing env.now ≠ []) :
    ∃ summary : ScanCycleSummary,
      (runScan m env).monitor.alertHistory.getLast? = some summary ∧
      summary.alerts =
        ((scanTopCollections env.listing env.now).take 5).flatMap
          (fun r => r.alerts.map (fun alert =>
            ({ time := env.now, collection := r.collection, type := alert.type,
               severity := alert.severity, message := alert.message } : LoggedAlert))) ∧
      summary.totalAlerts = (scanTopCollections env.listing env.now).length ∧
      summary.highPriorityCount =
        (scanTopCollections env.listing env.now).countP isHighPriority :=
  ⟨_, scanUpdate_last m _ env.now h, rfl, rfl, rfl⟩

/-- Witness for C27: a scan that finds the collection `hot`. -/
theorem summary_consistent_witness :
    scanTopCollections hotEnv.listing hotEnv.now ≠ [] ∧
    ∃ summary : ScanCycleSummary,
      (runScan ContinuousMonitor.new hotEnv).monitor.alertHistory.getLast? = some summary ∧
      summary.totalAlerts = (scanTopCollections hotEnv.listing hotEnv.now).length := by
  have hA : scanTopCollections hotEnv.listing hotEnv.now ≠ [] := by
    have hscan : scanTopCollections hotEnv.listing hotEnv.now = _ :=
      scanTopCollections_single "hot" hotEnv.now hotStats buildAlerts_hotStats_ne
    rw [hscan]
    simp
  obtain ⟨summary, h1, _, h3, _⟩ := summary_consistent ContinuousMonitor.new hotEnv hA
  exact ⟨hA, summary, h1, h3⟩

/-- The hot collection raises two alerts. -/
theorem length_buildAlerts_hotStats : (buildAlerts hotStats).length = 2 := by
  decide!

/-- The length of a flattened list whose parts all have the same length. -/
theorem length_flatMap_const {α β : Type} (f : α → List β) (k : Nat) (l : List α)
    (h : ∀ x ∈ l, (f x).length = k) : (l.flatMap f).length = k * l.length := by
  induction l with
  | nil => simp
  | cons x rest ih =>
    rw [List.flatMap_cons, List.length_append, h x (List.mem_cons_self _ _),
      ih (fun y hy => h y (List.mem_cons_of_mem _ hy)), List.length_cons]
    ring

/-- C27 fails as stated: a scan finds six collections with two alerts each, 12
alerts in all; the summary appended has `totalAlerts` 6, the number of
collections, and only the 10 alerts of the first five results. -/
theorem summary_consistent_counterexample :
    (scanTopCollections sixEnv.listing sixEnv.now).length = 6 ∧
    ((scanTopCollections sixEnv.listing sixEnv.now).flatMap (fun r => r.alerts)).length = 12 ∧
    ∃ summary : ScanCycleSummary,
      (runScan ContinuousMonitor.new sixEnv).monitor.alertHistory = [summary] ∧
      summary.totalAlerts = 6 ∧ summary.alerts.length = 10 := by
  have hpos : 0 < (buildAlerts hotStats).length := by rw [length_buildAlerts_hotStats]; decide
  have hlen : (scanTopCollections sixEnv.listing sixEnv.now).length = 6 := by
    simp [scanTopCollections, detectUnusualActivity, sixEnv, sixListing, hpos,
      List.length_mergeSort]
  have hne : scanTopCollections sixEnv.listing sixEnv.now ≠ [] := by
    intro h0
    rw [h0] at hlen
    simp at hlen
  have htwo : ∀ r ∈ scanTopCollections sixEnv.listing sixEnv.now, r.alerts.length = 2 := by
    intro r hr
    obtain ⟨collections, hl, c, hc, stats, hst, _, hra, _⟩ := mem_scanTopCollections hr
    simp only [sixEnv, Option.some.injEq] at hl
    subst hl
    have hstats : stats = hotStats := by
      simp only [sixListing, List.take, List.mem_cons, List.mem_singleton,
        List.not_mem_nil, or_false] at hc
      rcases hc with h | h | h | h | h | h <;> subst h <;>
        simp only [Option.some.injEq] at hst <;> exact hst.symm
    rw [hra, hstats, length_buildAlerts_hotStats]
  have hhist : (runScan ContinuousMonitor.new sixEnv).monitor.alertHistory =
      [{ timestamp := sixEnv.now,
         totalAlerts := (scanTopCollections sixEnv.listing sixEnv.now).length,
         highPriorityCount :=
           (scanTopCollections sixEnv.listing sixEnv.now).countP isHighPriority,
         alerts := ((scanTopCollections sixEnv.listing sixEnv.now).take 5).flatMap
           (fun r => r.alerts.map (fun alert =>
             ({ time := sixEnv.now, collection := r.collection, type := alert.type,
                severity := alert.severity, message := alert.message } : LoggedAlert))) }] :=
    scanUpdate_summary ContinuousMonitor.new _ sixEnv.now hne
  refine ⟨hlen, ?_, _, hhist, hlen, ?_⟩
  · rw [length_flatMap_const (fun r : ScanResult => r.alerts) 2 _ htwo, hlen]
  · show (((scanTopCollections sixEnv.listing sixEnv.now).take 5).flatMap _).length = 10
    rw [length_flatMap_const _ 2 _ (fun r hr => by
      rw [List.length_map]
      exact htwo r (List.mem_of_mem_take hr)), List.length_take, hlen]
    rfl

end ContinuousMonitor

/-! ## A monitor without an API key -/

namespace ContinuousMonitor

open OpenSeaMonitor

/-- Without a key `getHeaders` throws, and a scan meets a failed request for
the collection list and no exception in the trending section. -/
theorem scanEnv_keyless (envKey : Option String) (hkey : truthy envKey = false)
    (server : ServerAnswers) (now : String) (writeFails : Bool) :
    (∃ msg, (monitorOf envKey).getHeaders = Except.error msg) ∧
    scanEnv (monitorOf envKey) server now writeFails =
      { listing := none, now := now, trendingThrows := false, writeFails := writeFails } := by
  cases envKey with
  | none => exact ⟨⟨_, rfl⟩, rfl⟩
  | some key =>
    have hk : key = "" := by simpa [truthy] using hkey
    subst hk
    exact ⟨⟨_, rfl⟩, rfl⟩

/-- C22, as the code has it: a missing API key is an error of each request and
not of the construction: the constructor builds the monitor, `getHeaders`
throws on every request, and the throw is caught; so a monitor without a key
starts and arms its timer, and each of its scans finds no collection, leaves
the fields as they are and writes the log unless the write fails. -/
theorem keyless_monitor_runs (envKey : Option String) (hkey : truthy envKey = false)
    (server : ServerAnswers) (now : String) (writeFails : Bool) :
    (monitorOf envKey).apiKey = envKey ∧
    (∃ msg, (monitorOf envKey).getHeaders = Except.error msg) ∧
    (∀ m : ContinuousMonitor,
      (runScan m (scanEnv (monitorOf envKey) server now writeFails)).monitor = m ∧
      (writeFails = false →
        (runScan m (scanEnv (monitorOf envKey) server now writeFails)).written
          = some (saveLog m now))) ∧
    (∀ (w : World) (timer : Nat), w.monitor.isRunning = false →
      (start w (scanEnv (monitorOf envKey) server now writeFails) timer).monitor.isRunning
        = true ∧
      (start w (scanEnv (monitorOf envKey) server now writeFails) timer).timers
        = timer :: w.timers) := by
  obtain ⟨hthrow, henv⟩ := scanEnv_keyless envKey hkey server now writeFails
  refine ⟨?_, hthrow, ?_, ?_⟩
  · cases envKey with
    | none => rfl
    | some key =>
      have hk : key = "" := by simpa [truthy] using hkey
      subst hk
      rfl
  · intro m
    rw [henv]
    refine ⟨rfl, ?_⟩
    intro hw
    subst hw
    rfl
  · intro w timer hidle
    rw [henv]
    unfold start
    rw [if_neg (by simp [hidle])]
    exact ⟨(init_fields { w.monitor with isRunning := true } w.file).2.1, rfl⟩

/-- Witness for C22: no key in the environment, a marketplace that lists the
collection `hot`. -/
theorem keyless_monitor_runs_witness :
    truthy none = false ∧
    (∃ msg, (monitorOf none).getHeaders = Except.error msg) ∧
    (start idleWorld (scanEnv (monitorOf none) hotServer "2025-01-03T00:00:00.000Z" false)
      1).monitor.isRunning = true :=
  ⟨rfl,
   (keyless_monitor_runs none rfl hotServer "2025-01-03T00:00:00.000Z" false).2.1,
   ((keyless_monitor_runs none rfl hotServer "2025-01-03T00:00:00.000Z" false).2.2.2
      idleWorld 1 rfl).1⟩

/-- C22 fails as stated: with no key in the environment the monitor is built,
`start` sets it running and arms the timer, and its first scan, which finds
nothing, writes the log. -/
theorem keyless_counterexample :
    (monitorOf none).apiKey = none ∧
    (start idleWorld (scanEnv (monitorOf none) hotServer "2025-01-03T00:00:00.000Z" false)
      1).monitor.isRunning = true ∧
    (start idleWorld (scanEnv (monitorOf none) hotServer "2025-01-03T00:00:00.000Z" false)
      1).timers = [1] ∧
    (start idleWorld (scanEnv (monitorOf none) hotServer "2025-01-03T00:00:00.000Z" false)
      1).file =
      LogFileState.content (FileContent.log
        { lastUpdate := "2025-01-03T00:00:00.000Z", alertHistory := [],
          highPriorityAlerts := [] }) :=
  ⟨rfl, rfl, rfl, rfl⟩

end ContinuousMonitor

end NFTMonitor
